import Mathlib

/-!
Formal model of the ZClassic P2P blockchain snapshot subsystem
(`src/pow.cpp` together with the snapshot header), shallowly embedded in
Lean 4.  Bytes are `Nat` values below 256, byte vectors are `List Nat`,
`uint256` values are represented by their numeric value (the little-endian
interpretation of the 32 internal bytes, which is exactly the number denoted
by the hexadecimal literal passed to `uint256S`), timestamps (`int64_t
GetTime()`) are `Int`, and the C++ maps keyed by addresses or node ids are
total functions with the default-constructed entry as default, matching
`std::map::operator[]`.
-/

namespace ZclassicSnapshot

/-! ### SHA-256

Modelled from the spec: the chunk digest primitive `CSHA256` lives in
`crypto/sha256.cpp`, which is not among the sources here.  The spec fixes it
as the *single-pass* SHA-256 of the raw chunk bytes, so the standard
FIPS 180-4 SHA-256 is implemented below over byte lists. -/

def w32 : Nat := 4294967296

def rotr32 (x n : Nat) : Nat :=
  ((x >>> n) ||| ((x <<< (32 - n)) % w32)) % w32

def shaCh (x y z : Nat) : Nat := ((x &&& y) ^^^ ((x ^^^ 4294967295) &&& z)) % w32

def shaMaj (x y z : Nat) : Nat := ((x &&& y) ^^^ (x &&& z) ^^^ (y &&& z)) % w32

def bigSigma0 (x : Nat) : Nat := (rotr32 x 2 ^^^ rotr32 x 13 ^^^ rotr32 x 22) % w32

def bigSigma1 (x : Nat) : Nat := (rotr32 x 6 ^^^ rotr32 x 11 ^^^ rotr32 x 25) % w32

def smallSigma0 (x : Nat) : Nat := (rotr32 x 7 ^^^ rotr32 x 18 ^^^ (x >>> 3)) % w32

def smallSigma1 (x : Nat) : Nat := (rotr32 x 17 ^^^ rotr32 x 19 ^^^ (x >>> 10)) % w32

/-- The 64 SHA-256 round constants of FIPS 180-4 (decimal notation). -/
def shaK : List Nat :=
  [1116352408, 1899447441, 3049323471, 3921009573, 961987163, 1508970993,
   2453635748, 2870763221, 3624381080, 310598401, 607225278, 1426881987,
   1925078388, 2162078206, 2614888103, 3248222580, 3835390401, 4022224774,
   264347078, 604807628, 770255983, 1249150122, 1555081692, 1996064986,
   2554220882, 2821834349, 2952996808, 3210313671, 3336571891, 3584528711,
   113926993, 338241895, 666307205, 773529912, 1294757372, 1396182291,
   1695183700, 1986661051, 2177026350, 2456956037, 2730485921, 2820302411,
   3259730800, 3345764771, 3516065817, 3600352804, 4094571909, 275423344,
   430227734, 506948616, 659060556, 883997877, 958139571, 1322822218,
   1537002063, 1747873779, 1955562222, 2024104815, 2227730452, 2361852424,
   2428436474, 2756734187, 3204031479, 3329325298]

/-- Eight-word SHA-256 chaining state. -/
structure Hash8 where
  a : Nat
  b : Nat
  c : Nat
  d : Nat
  e : Nat
  f : Nat
  g : Nat
  h : Nat
deriving DecidableEq, Repr

/-- The initial SHA-256 hash value of FIPS 180-4 (decimal notation). -/
def shaH0 : Hash8 :=
  ⟨1779033703, 3144134277, 1013904242, 2773480762,
   1359893119, 2600822924, 528734635, 1541459225⟩

/-- Big-endian byte serialisation of `n` to `k` bytes. -/
def natToBytesBE : Nat → Nat → List Nat
  | 0, _ => []
  | k + 1, n => natToBytesBE k (n / 256) ++ [n % 256]

/-- Big-endian interpretation of a byte list as a number. -/
def bytesToNatBE (l : List Nat) : Nat := l.foldl (fun acc b => acc * 256 + b) 0

/-- Group a byte list into big-endian 32-bit words (groups of four bytes). -/
def bytesToWordsBE : List Nat → List Nat
  | b0 :: b1 :: b2 :: b3 :: rest =>
      (((b0 * 256 + b1) * 256 + b2) * 256 + b3) :: bytesToWordsBE rest
  | _ => []

/-- FIPS 180-4 padding: append `0x80`, zeros to 56 mod 64, then the 64-bit
big-endian bit length. -/
def shaPad (msg : List Nat) : List Nat :=
  let rem := (msg.length + 9) % 64
  let zeros := if rem = 0 then 0 else 64 - rem
  msg ++ [128] ++ List.replicate zeros 0 ++ natToBytesBE 8 (8 * msg.length)

/-- One step of message-schedule extension: append `W[t]` computed from the
words 2, 7, 15 and 16 positions back. -/
def scheduleStep (w : List Nat) : List Nat :=
  let n := w.length
  w ++ [(smallSigma1 (w.getD (n - 2) 0) + w.getD (n - 7) 0 +
         smallSigma0 (w.getD (n - 15) 0) + w.getD (n - 16) 0) % w32]

def buildSchedule : List Nat → Nat → List Nat
  | w, 0 => w
  | w, fuel + 1 => buildSchedule (scheduleStep w) fuel

/-- One SHA-256 compression round with round input `(W[t], K[t])`. -/
def compressStep (st : Hash8) (wk : Nat × Nat) : Hash8 :=
  let t1 := (st.h + bigSigma1 st.e + shaCh st.e st.f st.g + wk.2 + wk.1) % w32
  let t2 := (bigSigma0 st.a + shaMaj st.a st.b st.c) % w32
  ⟨(t1 + t2) % w32, st.a, st.b, st.c, (st.d + t1) % w32, st.e, st.f, st.g⟩

/-- Process one 64-byte block. -/
def compressBlock (H : Hash8) (block : List Nat) : Hash8 :=
  let ws := buildSchedule (bytesToWordsBE block) 48
  let s := (ws.zip shaK).foldl compressStep H
  ⟨(H.a + s.a) % w32, (H.b + s.b) % w32, (H.c + s.c) % w32, (H.d + s.d) % w32,
   (H.e + s.e) % w32, (H.f + s.f) % w32, (H.g + s.g) % w32, (H.h + s.h) % w32⟩

/-- Split a list into consecutive groups of 64 elements; the fuel argument
(`l.length` at the start, strictly decreasing) makes the recursion
structural.  One unit of fuel per block always suffices because every block
removes 64 elements. -/
def chunks64Fuel : Nat → List Nat → List (List Nat)
  | 0, _ => []
  | _, [] => []
  | fuel + 1, l => l.take 64 :: chunks64Fuel fuel (l.drop 64)

def chunks64 (l : List Nat) : List (List Nat) := chunks64Fuel l.length l

/-- Single-pass SHA-256 of a byte list, as a 32-byte big-endian digest. -/
def sha256 (msg : List Nat) : List Nat :=
  let H := (chunks64 (shaPad msg)).foldl compressBlock shaH0
  natToBytesBE 4 H.a ++ natToBytesBE 4 H.b ++ natToBytesBE 4 H.c ++
  natToBytesBE 4 H.d ++ natToBytesBE 4 H.e ++ natToBytesBE 4 H.f ++
  natToBytesBE 4 H.g ++ natToBytesBE 4 H.h

/-! ### Manifest (`CSnapshotChunkInfo`, `CSnapshotManifest`, snapshot.h) -/

/-- `struct CSnapshotChunkInfo`: chunk number, SHA-256 digest (`uint256`, as
its numeric value), size in bytes. -/
structure CSnapshotChunkInfo where
  nChunkNumber : Nat
  hashChunk : Nat
  nSize : Nat
deriving DecidableEq, Repr, Inhabited

/-- `struct CSnapshotManifest`. -/
structure CSnapshotManifest where
  nBlockHeight : Nat
  nTimestamp : Nat
  nTotalSize : Nat
  vChunks : List CSnapshotChunkInfo
deriving DecidableEq, Repr, Inhabited

def CSnapshotManifest.GetChunkCount (m : CSnapshotManifest) : Nat := m.vChunks.length

/-- The `for (i...) if (vChunks[i].nChunkNumber != i) return false` loop of
`CSnapshotManifest::IsValid`, as a recursion carrying the running index. -/
def chunksSequentialFrom : Nat → List CSnapshotChunkInfo → Bool
  | _, [] => true
  | i, c :: rest => decide (c.nChunkNumber = i) && chunksSequentialFrom (i + 1) rest

/-- `CSnapshotManifest::IsValid` (pow.cpp:393-409): rejects zero height, an
empty chunk list, zero total size, and non-sequential chunk numbers. -/
def CSnapshotManifest.IsValid (m : CSnapshotManifest) : Bool :=
  if m.nBlockHeight = 0 then false
  else if m.vChunks.isEmpty then false
  else if m.nTotalSize = 0 then false
  else chunksSequentialFrom 0 m.vChunks

/-! ### ChunkStore (`CSnapshotStore`) -/

/-- The store: the loaded manifest plus the snapshot directory, modelled as a
map from chunk index to the contents of `chunk-NNN.dat` (if present). -/
structure CSnapshotStore where
  manifest : CSnapshotManifest
  chunkFiles : Nat → Option (List Nat)

/-- `CSnapshotStore::VerifyChunk` (pow.cpp:709-745): index bound, size check
against `manifest.vChunks[n].nSize`, then single-pass SHA-256 whose 32 output
bytes are written *reversed* into a `uint256` and compared with
`hashChunk`.  Writing the reversed digest into the little-endian `uint256`
blob makes the `uint256`'s numeric value the big-endian reading of the
digest, hence the `bytesToNatBE` below. -/
def CSnapshotStore.VerifyChunk (store : CSnapshotStore) (nChunk : Nat)
    (vData : List Nat) : Bool :=
  if h : nChunk < store.manifest.vChunks.length then
    let info := store.manifest.vChunks.get ⟨nChunk, h⟩
    if vData.length ≠ info.nSize then false
    else if bytesToNatBE (sha256 vData) ≠ info.hashChunk then false
    else true
  else false

/-- Oracle for the behaviour of the `boost::filesystem::ofstream` used by
`SaveChunk`: the open and the writes succeed (`ok`); the open fails and no
file is created (`openFail`); or a `std::exception` escapes after `k` bytes
reached the file (`writeExc k`).  The source's `catch` block
(pow.cpp:666-670) only logs and returns false; it does not remove the file. -/
inductive WriteOutcome where
  | ok : WriteOutcome
  | openFail : WriteOutcome
  | writeExc : Nat → WriteOutcome
deriving DecidableEq, Repr

/-- `CSnapshotStore::SaveChunk` (pow.cpp:636-671): bound check, then
`VerifyChunk`, then the file write.  Returns the C++ return value together
with the post-state of the snapshot directory. -/
def CSnapshotStore.SaveChunk (store : CSnapshotStore) (nChunk : Nat)
    (vData : List Nat) (io : WriteOutcome) : Bool × CSnapshotStore :=
  if nChunk ≥ store.manifest.GetChunkCount then (false, store)
  else if ¬ store.VerifyChunk nChunk vData then (false, store)
  else
    match io with
    | .openFail => (false, store)
    | .writeExc k =>
        (false, { store with
          chunkFiles := fun m => if m = nChunk then some (vData.take k) else store.chunkFiles m })
    | .ok =>
        (true, { store with
          chunkFiles := fun m => if m = nChunk then some vData else store.chunkFiles m })

/-! ### Hard-coded manifests (pow.cpp:859-2095, auto-generated tables) -/

def hardcodedManifestChunks : List CSnapshotChunkInfo := [
  CSnapshotChunkInfo.mk 0 0xe38c36e582ceefdda0a62c0b5d900ae70d656fb08f5f9999ef580dfbd208a23c 52428800,
  CSnapshotChunkInfo.mk 1 0xd5407180ebec16c81a8e4bf74c9cf7fbdca20b72f45c027667b16f0c83432627 52428800,
  CSnapshotChunkInfo.mk 2 0xb2a3cf86143db02d419eeaf77fb71bb3c2eaa93944511768afcb3465e486aca4 52428800,
  CSnapshotChunkInfo.mk 3 0x8e2c6e2fd97573d0954b01ab5824959175b65faa9823cd61af264691aeb5f569 52428800,
  CSnapshotChunkInfo.mk 4 0xbac389ff47bb8085416559a6732b840121622627263b8c4ddc35889c26eeeb99 52428800,
  CSnapshotChunkInfo.mk 5 0xcfbbdda3ee7df41091f6386a415d0a0b7cf673aef77112440039f8116146f38f 52428800,
  CSnapshotChunkInfo.mk 6 0x2508a27d2cbcb2f1140910408d0cc2858c2b027a73c5d43d8b43074f9cd6d044 52428800,
  CSnapshotChunkInfo.mk 7 0x3b1d1a41aadfb4ba30f4fc206ce6da20531f593276f9f988798ccaf42b6bcd45 52428800,
  CSnapshotChunkInfo.mk 8 0x5dd3589b6f31bcf8151159e606c6dd9eec8e72e83b75e10eeed46081d5ba6476 52428800,
  CSnapshotChunkInfo.mk 9 0x58fe81496a9f0b860ecc9286f9cf6419f9289325a8781fa920a806e193ca742a 52428800,
  CSnapshotChunkInfo.mk 10 0x727c9b44225d35b57bbfdbcaa4becc3a671ff63ac3485d147186898c157302b3 52428800,
  CSnapshotChunkInfo.mk 11 0xb65c4ffbee3e1f1ab2edb91aa3d37800ccf86442dc0a33fe5d0c06e84181c5b9 52428800,
  CSnapshotChunkInfo.mk 12 0x3b4b2a5514dca25af92b058551bd2d7d01d9d8a73c9514fe23068c29414e76f4 52428800,
  CSnapshotChunkInfo.mk 13 0xdc2c5aa1852f6b19e93fb7bdcdbcb242f5b66ec6cd7de72b554067ec06cea524 52428800,
  CSnapshotChunkInfo.mk 14 0x0f7496a4d3ab49e8c2ec06d4c383eec0b3fd14f99471d97acf21a8697b5e0f13 52428800,
  CSnapshotChunkInfo.mk 15 0x55f519125cd225dcacd742097f364461b4e676326fbb86055886888e38bf46c3 52428800,
  CSnapshotChunkInfo.mk 16 0x9f72efa68284ff81bea4b36b452169baf65340c7668c7f510abe4d47088acd30 52428800,
  CSnapshotChunkInfo.mk 17 0x0e228ae7407b0bd7c39a19b41abac3cd5fe7c9eebb9b8d72333bbb06df834fb2 52428800,
  CSnapshotChunkInfo.mk 18 0xd6047cbc29b11620f017ec89d8cc86a0d0258db0c55e90b50599e754b11fb91f 52428800,
  CSnapshotChunkInfo.mk 19 0x68d6217a6a89381c06128e748500708ab226ea49b26ade8a803f1c009ace7068 52428800,
  CSnapshotChunkInfo.mk 20 0xed5bfc006acb01007858cde7d49eefec0c881d90cf879b2d98a13132dc9481b3 52428800,
  CSnapshotChunkInfo.mk 21 0x2cea773273b37b21b1b5554b8a0e6f47097da7d0f144eda79a4f2902ed222d91 52428800,
  CSnapshotChunkInfo.mk 22 0x5c6c09c53bf97aa6c54612288fe3f63183c8cdcbfea7865bee2ae34d7b1bc0cc 52428800,
  CSnapshotChunkInfo.mk 23 0xa1b3c73ca152502fb05c9f429afd294d3c5746b4d063bbcbc8ca883b888f0f35 52428800,
  CSnapshotChunkInfo.mk 24 0x2662599e9d9795508668252d5898d920e540ea45b1e735aba825988d9a061270 52428800,
  CSnapshotChunkInfo.mk 25 0xd8d85f699408ca4f0e7ae31b91e6d37508468def47519b31c77785b75e7118e3 52428800,
  CSnapshotChunkInfo.mk 26 0xd98717fb1aac8fa12b8db443011860e94d1770e238d26b80f5d98220c923326c 52428800,
  CSnapshotChunkInfo.mk 27 0x256b50e8bcf82eaae50acdba162fdfebd823da0b86812dd99602c5f961b47144 52428800,
  CSnapshotChunkInfo.mk 28 0xc630d32e583d2f6aa38b89235d98dbff171818fef973604470fef8b04f61f348 52428800,
  CSnapshotChunkInfo.mk 29 0xe98d32acc3acc34d85b846105a914a14af95892f5d7c98010030a385aa953747 52428800,
  CSnapshotChunkInfo.mk 30 0x7ea2dc3340a7649404a4ace788558e13dd0591cb958d8a03b1b2d44a412e0cb4 52428800,
  CSnapshotChunkInfo.mk 31 0x3a452b597869bed16f967ec038d909d08dd05a88e19b9d4a5a92e1571b774cf2 52428800,
  CSnapshotChunkInfo.mk 32 0x78fd824527c3296b50378cc456198e0e30421b583876c49a61b955df2b0b8464 52428800,
  CSnapshotChunkInfo.mk 33 0x2a0efcc5ab09b2193cba2d167938ff66f23987d39d833f4b619dd4908a4962dd 52428800,
  CSnapshotChunkInfo.mk 34 0xaee149793d80d326b3122555ac9d37b68a8744bffe13fd8bd93983e5b59cdab6 52428800,
  CSnapshotChunkInfo.mk 35 0x4d228c9d298b60cfbe5b3d2de6a859b8209da933e0aa723b164ed1777bca95e9 52428800,
  CSnapshotChunkInfo.mk 36 0x8f75532327d628fdfe4fd91804a95d3e9b4f59b19051b878880417ddcfc358f5 52428800,
  CSnapshotChunkInfo.mk 37 0xa67206b51135837aa3b2c5655b2ddda2db0c6f55df5c14bc7ae0d8df38c0b2cc 52428800,
  CSnapshotChunkInfo.mk 38 0x9ec6dad4f403a391d36b64238155c6f6bcfb3a1ff06dd9d90de6465bfafc9ae0 52428800,
  CSnapshotChunkInfo.mk 39 0xb2effdb7eb30ad9cc370aae07d07f31ac17dff411b5c2948cadcd86dff8a668d 52428800,
  CSnapshotChunkInfo.mk 40 0x6a788caffcb154750e6168ee6d84c483dc0a17cd5f75771bc1636645e1b7b651 52428800,
  CSnapshotChunkInfo.mk 41 0x986da50c38ec19700bbb12279108087f0488836ccfc035b1b2b496c6b7f4e199 52428800,
  CSnapshotChunkInfo.mk 42 0x263d101cd2aa377d16ab6b1010389d082d26bc5c0e30e5254cc51554ecbddff6 52428800,
  CSnapshotChunkInfo.mk 43 0x2401d94e829daaa0b3fae36dcb3349b7929825e867ad79b4758fa3f9f5e220cd 52428800,
  CSnapshotChunkInfo.mk 44 0x9b3903c6faf8d9620e551630bd6503d6ed82662b9c38e816142da03c500ca3d8 52428800,
  CSnapshotChunkInfo.mk 45 0x8b1cad0649ee5f5dc02cbfe29bce466118a4e5ef83e0fb3d00776fc198e065c6 52428800,
  CSnapshotChunkInfo.mk 46 0xc0abbfe48d05de579503fdc70b694952e29b43e6a6caff4ed89f67546e2e5d53 52428800,
  CSnapshotChunkInfo.mk 47 0x55325c4b139ce800ea67f0ad0e32276d49df1f7bd5b1e12a7eceb52e3a8bd647 52428800,
  CSnapshotChunkInfo.mk 48 0x84e0760c3d8157e8d6fcdb38ed9100652c61448e529ebd5c394165ec0afaaaea 52428800,
  CSnapshotChunkInfo.mk 49 0x387ee373d5b4bdcb4ad37d611491721322ef5ebfed4b79004e439e53aeb3b798 52428800,
  CSnapshotChunkInfo.mk 50 0x15627454c84d954f5505b03855402dfa828e6c4b466e436b978f7daf20c02d89 52428800,
  CSnapshotChunkInfo.mk 51 0x88124b1891f4773103aabf7dd185274dd27024d9152a5a8d9d17c1c3f2e26050 52428800,
  CSnapshotChunkInfo.mk 52 0x3245002534ae0bc65d6d81db199c4875bf9fbfe6619540747d92dd85947244e6 52428800,
  CSnapshotChunkInfo.mk 53 0x4ac0b23d1cae85034e60da6e011c2e888bf94f1233fe3b7c72d7aabca831a20c 52428800,
  CSnapshotChunkInfo.mk 54 0xb1173c397b77e0101703a02a1da9bcac7c22a0c2821fab4f5b87960b79361909 52428800,
  CSnapshotChunkInfo.mk 55 0x40ecde451471d44b13f8530df30184c4ea80130c6971e48dd95e49d90ca80452 52428800,
  CSnapshotChunkInfo.mk 56 0xa9c7775de64da2ad9d732563d210940210f07d7ad937b1ed6068552d981783c6 52428800,
  CSnapshotChunkInfo.mk 57 0x0dffbb1d004f09057b75443a4f37f84105a241ee2b11ad79c6d47d8ccfccc277 52428800,
  CSnapshotChunkInfo.mk 58 0xca4eec52ed96c2fd63c4819154c7ce8f0518603238cfdefd8242d159ede648e5 52428800,
  CSnapshotChunkInfo.mk 59 0xc59fc48dfd40eb144ba98452ca260305934df689788726d8f9a1fe9c7907bc4b 52428800,
  CSnapshotChunkInfo.mk 60 0x230cbb840409be367af840fb737bc855bd80c8841f542eae0f915b6773711b4e 52428800,
  CSnapshotChunkInfo.mk 61 0x4a8032f1c0a5c28020dc32bb8b51ed2adad896d48a99f2f7aad28254477c98ac 52428800,
  CSnapshotChunkInfo.mk 62 0xd406a7fb2c6bf9adf400c647b321a60c3e4f7f8d49673f0d1d9136947211e817 52428800,
  CSnapshotChunkInfo.mk 63 0x554f409d010c727593ea0e29e6fcb521bc8a2572f6603bbc11b47c8f316988a9 52428800,
  CSnapshotChunkInfo.mk 64 0x23ea989ed943382845313e158f4ec7ab826817598af62788fab9eb6c0515820a 52428800,
  CSnapshotChunkInfo.mk 65 0x4628797d30551f27a164d489781b77b3ae221ddeadcc71da0fa55071959cf6ce 52428800,
  CSnapshotChunkInfo.mk 66 0x6a0bf0aaf18bf9fd9fa117186be6e2880a210cc7484143c39e30b4544c5853f9 52428800,
  CSnapshotChunkInfo.mk 67 0x0a02fbf7f3891513c01df52468afcfa94d72e990ce7106776bc3889a6d3a7a39 52428800,
  CSnapshotChunkInfo.mk 68 0xc1c9d4bfd91b67c476ccfb6bc26911d4174d21809b75927b7bf6869828e8053a 52428800,
  CSnapshotChunkInfo.mk 69 0xe73562096fb52cc3cffa5bc5a75b1a548d9b3f2f81238c7c5fa4f535f12d2911 52428800,
  CSnapshotChunkInfo.mk 70 0x1cf30fc0d4a8499f287b19826e65e6fb333c06e76c53922f1f17cf96f961cbdf 52428800,
  CSnapshotChunkInfo.mk 71 0x31d9bbb42fb71e9a7f7ddc2d2c8e846e72a369914e02dbfbd57fb57516467051 52428800,
  CSnapshotChunkInfo.mk 72 0xe95ad01e6bf224d1fefb3c600eef235169c21bbe7f792416e90d50342d5f131c 52428800,
  CSnapshotChunkInfo.mk 73 0x3c4d6f58fe267d0b489d9e44ecc0d2cbbb1155edfd5dd300c9ab2db34591315c 52428800,
  CSnapshotChunkInfo.mk 74 0x6ef9ee05c05651ad676b29d76319b780db1b5a4623d2ec2173c68d2d078d5427 52428800,
  CSnapshotChunkInfo.mk 75 0xab2c84b8dd4ebe3c346e41d26cb90d9e3133625a82e2930928b09e4e3fdabab0 52428800,
  CSnapshotChunkInfo.mk 76 0x4e7ea0a43158648e421fb9d3925d78d403f63963225739f995aec36085e1ff8b 52428800,
  CSnapshotChunkInfo.mk 77 0x893416a8fb987d748cfe2fa3775beb7ce2e43ca04470f8687397d9e581f887ad 52428800,
  CSnapshotChunkInfo.mk 78 0x2fc52590251c07e990df62bc7a35e587c9acf442d9c4cecc10eeaeee9068659b 52428800,
  CSnapshotChunkInfo.mk 79 0xa9c7376205904591b77955a11c235e9339188750c4d0e59b5695616d1d2e589a 52428800,
  CSnapshotChunkInfo.mk 80 0xa30b72f480dbffd2e5222f402e5072f6b16c71bcc5b7b0175d412f4e4b7e7ef3 52428800,
  CSnapshotChunkInfo.mk 81 0x0e5cd004def0cc06dbb8299a2e9db9feab2849bd887639e0dd90fa9e4a2bd31f 52428800,
  CSnapshotChunkInfo.mk 82 0x550403c8860f35af058471d47c8d16bc22e3ea9be4f2323822251baea18b1edd 52428800,
  CSnapshotChunkInfo.mk 83 0x71def6e4d8a51257398dec201910c48bef57b08ec85f4b78097f98df98a4090b 52428800,
  CSnapshotChunkInfo.mk 84 0x8f9f98c39d319a0a15f7284e95951c3bb3248ad77fe5b312beb08fdfbba2e105 52428800,
  CSnapshotChunkInfo.mk 85 0xe8b8c15580542b55eca3ece1e327a32fdf1a282d99f87fe52fca8099ba87ba52 52428800,
  CSnapshotChunkInfo.mk 86 0x44cc3d005f20552c7e4605fb5245ce7d3917af6debee94c1fd41f8b2b7f22d69 52428800,
  CSnapshotChunkInfo.mk 87 0x7a87d5c39fce58749bd7504b0318edb0dfbde5ccb507145dfcd188b7bd1a8021 52428800,
  CSnapshotChunkInfo.mk 88 0xafc0a40b277ea2549f500a8c7491932e13f211a02262d8be1c262890debc53f6 52428800,
  CSnapshotChunkInfo.mk 89 0xd322a021f54833ff529ebcb708c668a2b69495c4cff3ebec1e8e3359294f53e8 52428800,
  CSnapshotChunkInfo.mk 90 0x1f7733351c0c68cd1bc3f47bf34897fc209ab1f2fafde3b6a153e7d61541aaf7 52428800,
  CSnapshotChunkInfo.mk 91 0x74cdc6dd292386fdd4ac6fc699b6d72d7bfd0643ff25839e2db71218e4cc31f8 52428800,
  CSnapshotChunkInfo.mk 92 0x9e0cb226a128ef1fc8d9b36eb8ace88175158cc29dc8c17b6a6b4c5e061112fa 52428800,
  CSnapshotChunkInfo.mk 93 0x0b256226bd421b52c357a39eb5e754a7bd9b8c4f37f9582a981a6eba2fe36b08 52428800,
  CSnapshotChunkInfo.mk 94 0x2af7ab13e097fe09a3bf5c4b1b873d4699819b4c9164f286c92151796d739433 52428800,
  CSnapshotChunkInfo.mk 95 0x7d7e3f30ea6ded736ee370d9d2679a6396086e1e162ceacc6637b70557e16563 52428800,
  CSnapshotChunkInfo.mk 96 0xeccd6e66a23c39dacd67bfa466a3f3d4b7d0871e147ec38195a76b5068b32306 52428800,
  CSnapshotChunkInfo.mk 97 0xda3f8590607480af70c667efa0c3d5983b68338921bb3aeceb00e06c016f95d3 52428800,
  CSnapshotChunkInfo.mk 98 0x8e0b21a52a5237974291988c366bc4d0ade40003ce322f877b6399d128e4bf63 52428800,
  CSnapshotChunkInfo.mk 99 0xdab3d8d2d4421be9babe1668ac9ebfdfd9fba3465e2222ad743e255c3bdca240 52428800,
  CSnapshotChunkInfo.mk 100 0xc04a79584ba6d7985f8f409909d465f73b3dc326735a0d593f400afcdbdc1c41 52428800,
  CSnapshotChunkInfo.mk 101 0x8b0d76852bc194bfaf5ff64d318943274d79d392094e936cbbeba05f81f76332 52428800,
  CSnapshotChunkInfo.mk 102 0x56155b3138e0c5860f456dfaefd386e6134bb26e20c5e05416a71dd1c6ae6d0e 52428800,
  CSnapshotChunkInfo.mk 103 0x5e6e0c6e00bf0801d9ff2cee0aedd0936f3bc71bc0463127427e75646d090f91 52428800,
  CSnapshotChunkInfo.mk 104 0xa333f7ca131bde238a1b7ca3c761f310c2cf3dcfb2eee824dbf9bf964dec80d8 52428800,
  CSnapshotChunkInfo.mk 105 0xa318357d14fd22194806ae605030cc8aa917e1c98d3acdaad78ba089c4dbb390 52428800,
  CSnapshotChunkInfo.mk 106 0x047db461a515e7cc14be2632e374a7923a058b8543b3469cf113f5048e074757 52428800,
  CSnapshotChunkInfo.mk 107 0x80f8110f214696a1c11f7d8d40172719689254e402201496e1c67508470033fd 52428800,
  CSnapshotChunkInfo.mk 108 0xb4da1aea1c3b8c6d440cbbfa0483b1af7385d4d8514a6832e11095ea4dc35d2c 52428800,
  CSnapshotChunkInfo.mk 109 0x383c86b3e43f256e425fa53bf5d1aef45600c8a567cc14c224e50e773f2f0cea 52428800,
  CSnapshotChunkInfo.mk 110 0x5d880e24d51a3154df3138d2d46240d684c33e481c9418b778e75d56dd293e03 52428800,
  CSnapshotChunkInfo.mk 111 0x41378fa23a82dd66032343056e63b591d8897b2114024d922fba450c3f8b6623 52428800,
  CSnapshotChunkInfo.mk 112 0x47565fe962cad279f5aa8262f883dd21a551d9aa0a9ecada110bd8e1f08ab9e6 52428800,
  CSnapshotChunkInfo.mk 113 0x366a079cb3e902e867706f2d0170264a1796762bfc348c2d098e62c6b386ffb4 52428800,
  CSnapshotChunkInfo.mk 114 0xabc74b8fe1fd8377a0469146661f1cbd88759813fa390818d0afdc1782421914 52428800,
  CSnapshotChunkInfo.mk 115 0xf2bffa87dc9776f4639eb6002110366bd706e8ac57035abeb20f122c786a3470 52428800,
  CSnapshotChunkInfo.mk 116 0x7a66fcb47d5d9d9bdc6070b48d6d0b0bf69a218b650eb110303bde43f28c899d 52428800,
  CSnapshotChunkInfo.mk 117 0x2ad75290f043fad0d58edb10e658d44a719b206a7eb1dbee00ddafc8fa2c53e9 52428800,
  CSnapshotChunkInfo.mk 118 0xf7509d851f7e7323351b9fdc2687bd0f29234f6085ecd0fc2ae4bc51051a2208 52428800,
  CSnapshotChunkInfo.mk 119 0x4b1eb35ad7bc3e06be99cfede0e4c16b308ccae451223651abf9afc7c642df81 52428800,
  CSnapshotChunkInfo.mk 120 0x11321c2f2360707a793419524fc4ccf1d00fab0d5dbf6a0e15f60aaa2977276e 52428800,
  CSnapshotChunkInfo.mk 121 0x1d2674aaba4db787a41146e797d23401fd057df6cbda7c2b45035d0ce7e034d6 52428800,
  CSnapshotChunkInfo.mk 122 0x5794c28139a9222ce497a97475033e3234ebda6d8284859851e08d4e88ef77f0 52428800,
  CSnapshotChunkInfo.mk 123 0x9971a2ae5884ea520870a0ab7c807c9a950ccb650173062e199a1eb718cd45bb 52428800,
  CSnapshotChunkInfo.mk 124 0x79682e895f08a4192358c84c25c2659ca17a39dd0131673f6bc42b2d7a0ef255 52428800,
  CSnapshotChunkInfo.mk 125 0x36476d9106de3ad7f70e97c2ca6ed7ce969febf5f87602c7c3bacc34aea6652d 52428800,
  CSnapshotChunkInfo.mk 126 0x987e5bc27e8eb4523a6761f404c5326306392fbbafce1bfbde5cc0e5071c9267 52428800,
  CSnapshotChunkInfo.mk 127 0x09d178c896e8859c03f79e7cf316686976892849087fe7a0870461b80182569c 52428800,
  CSnapshotChunkInfo.mk 128 0x1e6b8a636fd2fe1a7343dc4e4326a5d38449639c21e6767cb352fbdcb7ceae12 52428800,
  CSnapshotChunkInfo.mk 129 0x351508b2af4cb6bc79f768303ac728611bb7a0ce89227c92fd5c18b62085e9be 52428800,
  CSnapshotChunkInfo.mk 130 0xb059428265de73c2577031389d49244320b091920acc237b7570355023eb1268 52428800,
  CSnapshotChunkInfo.mk 131 0x46de5a1f5c02f7027af3344c54b90f480a9f0b94191818f9461ca169ffd857f6 52428800,
  CSnapshotChunkInfo.mk 132 0x68f67cbf9f58984d4f0f9fbf8b15edabd22600726ac576bbebe512cf75008921 52428800,
  CSnapshotChunkInfo.mk 133 0x6e8e0be5933f05d800ed13ffed9275b5fb312d6f7a481e72333835d7a9702b55 52428800,
  CSnapshotChunkInfo.mk 134 0xc1e953945b2df9b4261d3e3b81db62a2412c48e98890bd53ff4173de3e3a17aa 52428800,
  CSnapshotChunkInfo.mk 135 0x79afc3ade1f9b0c94cd9512d152cc41d64812c826cc5ce5b64b929c07713fe50 52428800,
  CSnapshotChunkInfo.mk 136 0x1719378f17284dd461e7812d230797cfdebbb9d7ee6e1c0d2390a37401a0c582 52428800,
  CSnapshotChunkInfo.mk 137 0xaf81c62616164dfd190d094223ae0b2975076910d9fce52406ba3ddcc9b5cc3b 52428800,
  CSnapshotChunkInfo.mk 138 0x02beabed5eb2d12c9567509a62a7e1e482794f845f8aff8966bb34c7ab05d9f4 52428800,
  CSnapshotChunkInfo.mk 139 0x6f00a58676c0f1c3bab07b3039461a165012f6079245594a7e9e9156b6f2106e 52428800,
  CSnapshotChunkInfo.mk 140 0xdecf73bdb5e678fc64a4997bbb6abf8a918c2dbceb01333b63dd98659bd6eabd 52428800,
  CSnapshotChunkInfo.mk 141 0x83e8e87758e9c4601b4ef6eef50e56aebb1afd0fb6d21db55692b9c674b42d52 52428800,
  CSnapshotChunkInfo.mk 142 0xb9a507bca753b08ba32e8cc9df36978f6e597674f1416983c6a84e33e0b96b64 52428800,
  CSnapshotChunkInfo.mk 143 0x2602937a1ff0412c37b727f19618db3280015c8effa7c1f65ec69095bfdfd4e6 52428800,
  CSnapshotChunkInfo.mk 144 0xc2764e2c68524a6ae369f8e924baff134f1c888e187eba797dbe3de7dd46396b 52428800,
  CSnapshotChunkInfo.mk 145 0x6aa680fe27da34f3e54ae1b2b7df455cb497f0b5974a261add9866fb8c26d94e 52428800,
  CSnapshotChunkInfo.mk 146 0x55c6425cb9ebefc1f5a1221c160cb1b7ef950a1eed506645c96e76d926d88330 52428800,
  CSnapshotChunkInfo.mk 147 0xc9c605ac0bb194a5276a2ac14892d57b52abfe9258285c7a8a27ebb56848d5f9 52428800,
  CSnapshotChunkInfo.mk 148 0xe91072a472a257e3f387a3109c6e1521bbc73e26030985f8117313e3fac10fda 52428800,
  CSnapshotChunkInfo.mk 149 0x5bb0242392e537c1b37a12e886806102c0254639ce6ec790a400f4e448314788 52428800,
  CSnapshotChunkInfo.mk 150 0x031bf898502ee1a088233326a93ad878b09d51779534cd9600ee3e2548cf5aa5 52428800,
  CSnapshotChunkInfo.mk 151 0x4d696947ac80f32ab8577cb1a00dcaba982148c0103eb72026b5fab6ddd77eca 52428800,
  CSnapshotChunkInfo.mk 152 0x8276ab7f7193b7947160eb0946fc007bd3dc4ce32c92d9d2d7b4ee1a86a91b7f 52428800,
  CSnapshotChunkInfo.mk 153 0x93f5778e30040d9df60b0fac08368b6ed1d7dd2e13b79b086722a8925a98e5d2 52428800,
  CSnapshotChunkInfo.mk 154 0x3aae45aef62e87e1e2c09e2aab4923043771fe6e20a78c4f6ab5960c6dbe5542 52428800,
  CSnapshotChunkInfo.mk 155 0x1f86e231039597aade4cc8136bd8a0fe44768b4d4b9e0d5335470ae3afdf7de5 52428800,
  CSnapshotChunkInfo.mk 156 0x652e1520c9594caeadc3edf22ba91cd6e54f173bea593156d487ec02c1040016 52428800,
  CSnapshotChunkInfo.mk 157 0x8969d9073dba3ff20af00eff6216bcbad60879ea4ff543f7672abd8575ec380a 52428800,
  CSnapshotChunkInfo.mk 158 0x6c2aacb206f9359f3bbc5093ea6c3c69116a33eba8b7163b75b22665acb046a0 52428800,
  CSnapshotChunkInfo.mk 159 0xb5999dbb40fbbda0a2b6be0d95069c4e937ed882b7184fb1d667ee9373265c80 52428800,
  CSnapshotChunkInfo.mk 160 0x97ff53a2c18cd994f8021b7568af9afb6458cf7cafc1e3b82cb810bf641fe2af 52428800,
  CSnapshotChunkInfo.mk 161 0x7a0d8412aea9a9e7d0e7bccc8a214cbb6ad66ffe75e7daa864418d82c92133d4 52428800,
  CSnapshotChunkInfo.mk 162 0x65ba7f3449cda0f0a9af31e564db91ac12c384ed6df6258576736b6bd213dada 52428800,
  CSnapshotChunkInfo.mk 163 0x86b92a4b560a6d46ab52bb672040b575b03c5b4d002281da54dd2127d6fb403f 52428800,
  CSnapshotChunkInfo.mk 164 0x19434df675c1bee008ea9450e643c5d84ba48c0b3271f377c979aa75329b42a4 52428800,
  CSnapshotChunkInfo.mk 165 0x09da3a2a3dba988c4d88f1dd59250fa9f6fade408d436e58f06846c1b813da4c 52428800,
  CSnapshotChunkInfo.mk 166 0x4fe41d008b49da7c23ca714081b0cbc121f6801b644ff59b7f50ccb70d762810 52428800,
  CSnapshotChunkInfo.mk 167 0xfcc1252a2b3e25eb29c5750acb5b5b8c0e608bc0b3adf4aa3806fb32c3a1bde7 52428800,
  CSnapshotChunkInfo.mk 168 0xf0261c4e5ce5c6169bf427c5a7cbe67e2209b3dd242c1e81283b41e512800896 52428800,
  CSnapshotChunkInfo.mk 169 0x313b0350d7f46d3e5629515cb205ca19d0e5eef37d344e34c90616940b277170 52428800,
  CSnapshotChunkInfo.mk 170 0x916f76fdc915398167419bec551a8697face9a1200e19cfd3e4fcd45b583f32f 40118312
]

/-- `GetHardcodedManifest` (pow.cpp:859-1895). -/
def GetHardcodedManifest : CSnapshotManifest :=
  { nBlockHeight := 2879438
    nTimestamp := 1760886990
    nTotalSize := 8953014312
    vChunks := hardcodedManifestChunks }

def hardcodedParamsManifestChunks : List CSnapshotChunkInfo := [
  CSnapshotChunkInfo.mk 0 0xa46904a35985af803cc57ad3f32a4062f47181034b09aefb5e9aa026d759176a 52428800,
  CSnapshotChunkInfo.mk 1 0x0b74c5a2dc84818f89647eb762dfacdc5f74fde601b15841b4916660432b0a4b 52428800,
  CSnapshotChunkInfo.mk 2 0xcfe658eb76c7d90dc205c46f6b8e9b8428f4739ac7d35ae627e87b6e5adfd0e2 52428800,
  CSnapshotChunkInfo.mk 3 0x4fc7126fa201f01d1d9b3b1f82c3c1f042e08e864da91adc598699555c9a8b13 52428800,
  CSnapshotChunkInfo.mk 4 0xc86b18955df31669feeecf873142d595dfecf5bf15d852e06a21593cb90c31ca 52428800,
  CSnapshotChunkInfo.mk 5 0xb4e63753c5fe732c2e7af36161c3cfeef5c4d90df7ed1586d695e3c68227ca99 52428800,
  CSnapshotChunkInfo.mk 6 0xf5e134ff763f5aff24acb210e386886755b3124c5470f0d808e6f808ef2101d1 52428800,
  CSnapshotChunkInfo.mk 7 0x3e86e8376d13ff15551206cd72ce27176b6bf9ef1101e57101c9dbb5aea06700 52428800,
  CSnapshotChunkInfo.mk 8 0x08f25b63388e2944143501924f189b27255de993d3626ffaca5c1d3322c14089 52428800,
  CSnapshotChunkInfo.mk 9 0x05912f9ab06fc9777b07116807aa7ea0b29fb7306e5971ef5bd929bb04ecd14a 52428800,
  CSnapshotChunkInfo.mk 10 0x1f57bef4b8eb50d6891f82ac5f32579bab2b4cab7adb1ef7a8295fffaa5ac16e 52428800,
  CSnapshotChunkInfo.mk 11 0xb4b65d27bb87a54ec8a9cac3b96d146e3bb12786750a318bfbbe6cfb0bfd9c37 52428800,
  CSnapshotChunkInfo.mk 12 0x55adf7896737363688a160c3b16dad9a6cec9110dbbcf492d9e1878c6b3f5766 52428800,
  CSnapshotChunkInfo.mk 13 0xf9e85550026030d149d16e54e554788fb1cc4b4794c0c4e3c3621b7507a15e01 52428800,
  CSnapshotChunkInfo.mk 14 0xf774b63dc9efd500045d0e9f5fb29bc02e8ff664633b591e604a5a7bf0e4dfff 52428800,
  CSnapshotChunkInfo.mk 15 0x5da0ce24fdb36c8910512ef642e5629a7149c4d0c3e1a2b48f64cf65dc59abd4 52428800,
  CSnapshotChunkInfo.mk 16 0xf033d49e967867ef134230ec0317fc80ef8769a711aa3b270a0328c200cf7c14 52428800,
  CSnapshotChunkInfo.mk 17 0xeed88f02d384a3ccd5c5f7d5a8ab64eb632042ac41ac8a34f4e72f2d3b8d93d3 52428800,
  CSnapshotChunkInfo.mk 18 0x4d7616ef6d2a10103d279e7c67445dcb7ff2118a110849179539a23d056b6bf9 52428800,
  CSnapshotChunkInfo.mk 19 0x1840f59366848a59f44306d51ac82588e6fa59f5fc1293f21eef3244345a3853 52428800,
  CSnapshotChunkInfo.mk 20 0x6a4faa50032983f53acd1391c8f39bbae90c9acccb5e6a9b94d698cd6f3afabc 52428800,
  CSnapshotChunkInfo.mk 21 0x5aa5caac0ace9586c909da3dc7724d6670769f60a93f2ba3925bf7ce70a64993 52428800,
  CSnapshotChunkInfo.mk 22 0xdaab4c9149d510611b340f6738abb0017f6f26f3f195e7026e0fc11dc807ad7b 52428800,
  CSnapshotChunkInfo.mk 23 0x836d492c799d79d5f008247f16c8af62e73849fc0e5a264f455edcf305167de7 52428800,
  CSnapshotChunkInfo.mk 24 0x97814dae6056a18c7a776ae35445a7fcad4b06581f6987b7d2c4700bd9ff5243 52428800,
  CSnapshotChunkInfo.mk 25 0xc1f64f1b7c3f92ae9da0997ae9ddbfb3ad08ea55220054d626a25206a9404281 52428800,
  CSnapshotChunkInfo.mk 26 0x94d7cf482692251f012db6b12aa9bd7619f35f7d49c82108b07d7162110cb7b0 52428800,
  CSnapshotChunkInfo.mk 27 0x7c633ad18809ecc6ae6f106b69f9e0c1f41beacd5134eebdb676cf6d8aa1332c 52428800,
  CSnapshotChunkInfo.mk 28 0x792491c4e05898f2fff3cfc59e06d1c5b46ec057f1bc41a941c7101e6640df89 52428800,
  CSnapshotChunkInfo.mk 29 0x21c9578131d7309e280699cde2579055359a5332346ec905b57565d7056d7d95 52428800,
  CSnapshotChunkInfo.mk 30 0x1d3af3bd7366ddda8703cf6cbbaede45fb6e9dd710c1baf71a2c4ac22d1f4e04 51624461
]

/-- `GetHardcodedParamsManifest` (pow.cpp:1899-2095).  Note
`nBlockHeight = 0` (params are version-specific, not height-specific). -/
def GetHardcodedParamsManifest : CSnapshotManifest :=
  { nBlockHeight := 0
    nTimestamp := 1760889827
    nTotalSize := 1624488461
    vChunks := hardcodedParamsManifestChunks }

/-! ### Sorted association lists, modelling `std::map` -/

/-- `std::map` insert-or-assign (`m[k] = v`), keeping keys sorted. -/
def mapInsert {β : Type} : List (Nat × β) → Nat → β → List (Nat × β)
  | [], k, v => [(k, v)]
  | (k2, v2) :: rest, k, v =>
      if k = k2 then (k, v) :: rest
      else if k < k2 then (k, v) :: (k2, v2) :: rest
      else (k2, v2) :: mapInsert rest k v

/-- `std::map::find`. -/
def mapFind {β : Type} : List (Nat × β) → Nat → Option β
  | [], _ => none
  | (k2, v) :: rest, k => if k2 = k then some v else mapFind rest k

/-! ### RateLimiter (`CSnapshotRateLimiter`, pow.cpp:2097-2266) -/

/-- `struct PeerRequestInfo` (snapshot.h): the per-peer sliding window
(`std::deque`, head = front), the served-chunk map, and the ban fields. -/
structure PeerRequestInfo where
  requestTimes : List Int
  servedChunks : List (Nat × Int)
  nLastRequestTime : Int
  nTotalRequests : Nat
  bIsBanned : Bool
  nBanUntil : Int
deriving DecidableEq, Repr

def initPeerRequestInfo : PeerRequestInfo := ⟨[], [], 0, 0, false, 0⟩

/-- The six configurable limits of the rate limiter. -/
structure RLConfig where
  nMaxChunksPerPeerPerMinute : Nat
  nMaxConcurrentTransfers : Nat
  nMinSecondsBetweenRequests : Int
  nDuplicateChunkWindowSec : Int
  nBanThreshold : Nat
  nBanDurationSec : Int
deriving DecidableEq, Repr

/-- The defaults set by the `CSnapshotRateLimiter` constructor
(pow.cpp:2101-2111). -/
def defaultRLConfig : RLConfig := ⟨30, 25, 2, 300, 100, 300⟩

/-- `CSnapshotRateLimiter`; peers (`CNetAddr`) are modelled as `Nat` and
`mapPeerRequests` as a total function with the default-constructed entry as
default, matching `std::map::operator[]`. -/
structure CSnapshotRateLimiter where
  mapPeerRequests : Nat → PeerRequestInfo
  nActiveTransfers : Nat
  nTotalBytesServed : Nat
  nLastResetTime : Int
  config : RLConfig

/-- The constructor: empty maps, zero counters, default limits. -/
def initRateLimiter (now : Int) : CSnapshotRateLimiter :=
  ⟨fun _ => initPeerRequestInfo, 0, 0, now, defaultRLConfig⟩

def CSnapshotRateLimiter.setPeer (rl : CSnapshotRateLimiter) (addr : Nat)
    (info : PeerRequestInfo) : CSnapshotRateLimiter :=
  { rl with mapPeerRequests := fun a => if a = addr then info else rl.mapPeerRequests a }

/-- The rejection reasons of `AllowRequest`, in the order the source tests
them (each corresponds to one `strError` message). -/
inductive RejectReason where
  | isBanned : RejectReason
  | capacity : RejectReason
  | tooFast : RejectReason
  | duplicate : RejectReason
  | rateLimit : RejectReason
deriving DecidableEq, Repr

/-- The `while (!requestTimes.empty() && (nNow - front) > 60) pop_front()`
cleanup loop (pow.cpp:2160-2162).  It stops at the first entry at most 60
seconds old. -/
def dropOldRequests (now : Int) : List Int → List Int
  | [] => []
  | t :: rest => if now - t > 60 then dropOldRequests now rest else t :: rest

/-- `CSnapshotRateLimiter::AllowRequest` (pow.cpp:2113-2186).  Returns
`none` when the request is admitted, `some reason` when rejected, together
with the post-state.  Every state mutation of the C++ reference
`info` is written back, also on rejection paths. -/
def CSnapshotRateLimiter.AllowRequest (rl : CSnapshotRateLimiter) (addr : Nat)
    (nChunk : Nat) (now : Int) : Option RejectReason × CSnapshotRateLimiter :=
  let info := rl.mapPeerRequests addr
  if info.bIsBanned ∧ now < info.nBanUntil then (some .isBanned, rl)
  else
    let info := if info.bIsBanned then
        { info with bIsBanned := false, nBanUntil := 0, requestTimes := [] }
      else info
    if rl.nActiveTransfers ≥ rl.config.nMaxConcurrentTransfers then
      (some .capacity, rl.setPeer addr info)
    else if info.nLastRequestTime > 0 ∧
        now - info.nLastRequestTime < rl.config.nMinSecondsBetweenRequests then
      (some .tooFast, rl.setPeer addr info)
    else if (match mapFind info.servedChunks nChunk with
             | some t => decide (now - t < rl.config.nDuplicateChunkWindowSec)
             | none => false) then
      (some .duplicate, rl.setPeer addr info)
    else
      let info := { info with requestTimes := dropOldRequests now info.requestTimes }
      if info.requestTimes.length ≥ rl.config.nMaxChunksPerPeerPerMinute then
        let info := if info.requestTimes.length ≥ rl.config.nBanThreshold then
            { info with bIsBanned := true, nBanUntil := now + rl.config.nBanDurationSec }
          else info
        (some .rateLimit, rl.setPeer addr info)
      else
        let info := { info with requestTimes := info.requestTimes ++ [now],
                                nLastRequestTime := now,
                                nTotalRequests := info.nTotalRequests + 1 }
        (none, { rl.setPeer addr info with nActiveTransfers := rl.nActiveTransfers + 1 })

/-- `CSnapshotRateLimiter::RecordServed` (pow.cpp:2188-2202). -/
def CSnapshotRateLimiter.RecordServed (rl : CSnapshotRateLimiter) (addr : Nat)
    (nChunk : Nat) (nBytes : Nat) (now : Int) : CSnapshotRateLimiter :=
  let info := rl.mapPeerRequests addr
  { rl.setPeer addr { info with servedChunks := mapInsert info.servedChunks nChunk now } with
    nTotalBytesServed := rl.nTotalBytesServed + nBytes }

/-- `CSnapshotRateLimiter::CompleteTransfer` (pow.cpp:2204-2211): decrement
`nActiveTransfers`, never below zero. -/
def CSnapshotRateLimiter.CompleteTransfer (rl : CSnapshotRateLimiter) : CSnapshotRateLimiter :=
  if rl.nActiveTransfers > 0 then
    { rl with nActiveTransfers := rl.nActiveTransfers - 1 }
  else rl

/-- `CSnapshotRateLimiter::Cleanup` (pow.cpp:2231-2254): erase peers idle
for more than 600 s and not banned (erasure = reset to the
default-constructed entry in the total-function model), and reset the
bandwidth counter every hour. -/
def CSnapshotRateLimiter.Cleanup (rl : CSnapshotRateLimiter) (now : Int) : CSnapshotRateLimiter :=
  let rl := { rl with mapPeerRequests := fun a =>
    let info := rl.mapPeerRequests a
    if now - info.nLastRequestTime > 600 ∧ info.bIsBanned = false then initPeerRequestInfo
    else info }
  if now - rl.nLastResetTime > 3600 then
    { rl with nTotalBytesServed := 0, nLastResetTime := now }
  else rl

/-- One call into the rate limiter: `AllowRequest addr chunk` at time `now`
(`GetTime()` at the moment of the call), `CompleteTransfer`, `RecordServed`
or `Cleanup`. -/
inductive RLEvent where
  | allow : Nat → Nat → Int → RLEvent
  | complete : RLEvent
  | served : Nat → Nat → Nat → Int → RLEvent
  | cleanup : Int → RLEvent
deriving DecidableEq, Repr

def rlStep (rl : CSnapshotRateLimiter) : RLEvent → CSnapshotRateLimiter
  | .allow a c t => (rl.AllowRequest a c t).2
  | .complete => rl.CompleteTransfer
  | .served a c b t => rl.RecordServed a c b t
  | .cleanup t => rl.Cleanup t

/-- Run a sequence of rate-limiter calls. -/
def runRL (rl : CSnapshotRateLimiter) (evs : List RLEvent) : CSnapshotRateLimiter :=
  evs.foldl rlStep rl

/-- Like `rlStep`, but also accumulating the list of admitted requests as
`(peer, time)` pairs. -/
def rlStepAdm (s : CSnapshotRateLimiter × List (Nat × Int)) (e : RLEvent) :
    CSnapshotRateLimiter × List (Nat × Int) :=
  match e with
  | .allow a c t =>
      let r := s.1.AllowRequest a c t
      (r.2, if r.1 = none then s.2 ++ [(a, t)] else s.2)
  | .complete => (s.1.CompleteTransfer, s.2)
  | .served a c b t => (s.1.RecordServed a c b t, s.2)
  | .cleanup t => (s.1.Cleanup t, s.2)

def runRLAdm (rl : CSnapshotRateLimiter) (evs : List RLEvent) :
    CSnapshotRateLimiter × List (Nat × Int) :=
  evs.foldl rlStepAdm (rl, [])

/-- Like `runRL`, but collecting the result of every `allow` event. -/
def rlStepRes (s : CSnapshotRateLimiter × List (Option RejectReason)) (e : RLEvent) :
    CSnapshotRateLimiter × List (Option RejectReason) :=
  match e with
  | .allow a c t =>
      let r := s.1.AllowRequest a c t
      (r.2, s.2 ++ [r.1])
  | .complete => (s.1.CompleteTransfer, s.2)
  | .served a c b t => (s.1.RecordServed a c b t, s.2)
  | .cleanup t => (s.1.Cleanup t, s.2)

def runRLRes (rl : CSnapshotRateLimiter) (evs : List RLEvent) :
    CSnapshotRateLimiter × List (Option RejectReason) :=
  evs.foldl rlStepRes (rl, [])

/-- The `GetTime()` value observed by an event, if it observes one. -/
def rlEventTime : RLEvent → Option Int
  | .allow _ _ t => some t
  | .complete => none
  | .served _ _ _ t => some t
  | .cleanup t => some t

def rlTimes (evs : List RLEvent) : List Int := evs.filterMap rlEventTime

/-- The times at which requests of peer `p` were admitted. -/
def admittedOf (p : Nat) (adm : List (Nat × Int)) : List Int :=
  (adm.filter (fun x => x.1 == p)).map Prod.snd

def inWindow (a t : Int) : Bool := decide (a ≤ t) && decide (t ≤ a + 60)

/-- Number of admissions of peer `p` falling in the sliding window
`[a, a+60]`. -/
def windowCount (p : Nat) (a : Int) (adm : List (Nat × Int)) : Nat :=
  ((admittedOf p adm).filter (inWindow a)).length

/-! ### DownloadState (`CSnapshotDownloadState`, pow.cpp:411-534) -/

structure CSnapshotDownloadState where
  mapChunksReceived : List (Nat × Bool)
  mapChunkRequests : List (Nat × Int)
  nTotalChunks : Nat
  nDownloadStartTime : Int
  nLastProgressTime : Int
  nLastProgressCount : Nat
deriving DecidableEq, Repr

def initDownloadState (nTotalChunks : Nat) : CSnapshotDownloadState :=
  ⟨[], [], nTotalChunks, 0, 0, 0⟩

/-- `CSnapshotDownloadState::IsChunkReceived` (pow.cpp:485-489). -/
def CSnapshotDownloadState.IsChunkReceived (st : CSnapshotDownloadState) (n : Nat) : Bool :=
  match mapFind st.mapChunksReceived n with
  | some b => b
  | none => false

/-- `CSnapshotDownloadState::GetReceivedCount` (pow.cpp:512-519): count the
map entries whose value is true. -/
def CSnapshotDownloadState.GetReceivedCount (st : CSnapshotDownloadState) : Nat :=
  (st.mapChunksReceived.filter (fun p => p.2)).length

/-- `CSnapshotDownloadState::IsComplete` (pow.cpp:491-499). -/
def CSnapshotDownloadState.IsComplete (st : CSnapshotDownloadState) : Bool :=
  (List.range st.nTotalChunks).all (fun i => st.IsChunkReceived i)

/-- `CSnapshotDownloadState::GetNextChunkToRequest` (pow.cpp:501-510): first
index not received, or `nTotalChunks` when all are. -/
def CSnapshotDownloadState.GetNextChunkToRequest (st : CSnapshotDownloadState) : Nat :=
  ((List.range st.nTotalChunks).find? (fun i => ! st.IsChunkReceived i)).getD st.nTotalChunks

/-- `CSnapshotDownloadState::MarkChunkReceived` (pow.cpp:415-448): guarded by
`nChunk < nTotalChunks`; inserts into the received map and updates the
progress-tracking fields (`now` is the `GetTime()` of the call). -/
def CSnapshotDownloadState.MarkChunkReceived (st : CSnapshotDownloadState)
    (nChunk : Nat) (now : Int) : CSnapshotDownloadState :=
  if nChunk < st.nTotalChunks then
    let st := { st with mapChunksReceived := mapInsert st.mapChunksReceived nChunk true }
    let st := if st.nDownloadStartTime = 0 then
        { st with nDownloadStartTime := now, nLastProgressTime := now }
      else st
    let nReceived := st.GetReceivedCount
    if (nReceived % 10 = 0 ∨ now - st.nLastProgressTime ≥ 30) ∧
        nReceived > st.nLastProgressCount then
      { st with nLastProgressTime := now, nLastProgressCount := nReceived }
    else st
  else st

/-- `CSnapshotDownloadState::RecordChunkRequest` (pow.cpp:521-524). -/
def CSnapshotDownloadState.RecordChunkRequest (st : CSnapshotDownloadState)
    (nChunk : Nat) (nTime : Int) : CSnapshotDownloadState :=
  { st with mapChunkRequests := mapInsert st.mapChunkRequests nChunk nTime }

/-- `CSnapshotDownloadState::HasRecentRequest` (pow.cpp:526-534): a request
is recent when strictly less than 60 s old. -/
def CSnapshotDownloadState.HasRecentRequest (st : CSnapshotDownloadState)
    (nChunk : Nat) (now : Int) : Bool :=
  match mapFind st.mapChunkRequests nChunk with
  | none => false
  | some t => decide (now - t < 60)

/-- One call into the download state. -/
inductive DSEvent where
  | mark : Nat → Int → DSEvent
  | record : Nat → Int → DSEvent
deriving DecidableEq, Repr

def dsStep (st : CSnapshotDownloadState) : DSEvent → CSnapshotDownloadState
  | .mark n t => st.MarkChunkReceived n t
  | .record n t => st.RecordChunkRequest n t

def runDS (nTotalChunks : Nat) (evs : List DSEvent) : CSnapshotDownloadState :=
  evs.foldl dsStep (initDownloadState nTotalChunks)

/-! ### DownloadCoordinator (`CSnapshotDownloadCoordinator`, pow.cpp:2268-2471) -/

/-- `struct PeerDownloadState` (snapshot.h). -/
structure PeerDownloadState where
  nLastRequestTime : Int
  nChunksRequested : Nat
  nChunksFailed : Nat
  nConsecutiveFailures : Nat
  nBackoffUntil : Int
deriving DecidableEq, Repr

def initPeerDownloadState : PeerDownloadState := ⟨0, 0, 0, 0, 0⟩

/-- The coordinator state relevant to request recording and timeout reaping;
node ids are modelled as `Nat`. -/
structure CSnapshotDownloadCoordinator where
  mapPeerStates : List (Nat × PeerDownloadState)
  mapChunkToNode : List (Nat × Nat)
deriving DecidableEq, Repr

def initCoordinator : CSnapshotDownloadCoordinator := ⟨[], []⟩

/-- `CSnapshotDownloadCoordinator::RecordRequest` (pow.cpp:2345-2359):
stamp the peer's `nLastRequestTime`, bump its request counter, and record
`mapChunkToNode[nChunk] = node`. -/
def CSnapshotDownloadCoordinator.RecordRequest (co : CSnapshotDownloadCoordinator)
    (node : Nat) (nChunk : Nat) (now : Int) : CSnapshotDownloadCoordinator :=
  let state := (mapFind co.mapPeerStates node).getD initPeerDownloadState
  let state := { state with nLastRequestTime := now,
                            nChunksRequested := state.nChunksRequested + 1 }
  { co with mapPeerStates := mapInsert co.mapPeerStates node state,
            mapChunkToNode := mapInsert co.mapChunkToNode nChunk node }

/-- The per-entry test of the reaping loop (pow.cpp:2435-2439): an in-flight
entry `(chunk, node)` is reaped iff `node` has a peer state and
`now - nLastRequestTime > REQUEST_TIMEOUT_SEC` (the peer's *latest* request
time, not the time this chunk was requested). -/
def timedOut (peerStates : List (Nat × PeerDownloadState)) (now : Int)
    (e : Nat × Nat) : Bool :=
  match mapFind peerStates e.2 with
  | some st => decide (now - st.nLastRequestTime > 60)
  | none => false

/-- The iteration of `GetTimedOutRequests` over `mapChunkToNode`: collect
reaped `(node, chunk)` pairs in map order and keep the rest. -/
def reapLoop (peerStates : List (Nat × PeerDownloadState)) (now : Int) :
    List (Nat × Nat) → List (Nat × Nat) × List (Nat × Nat)
  | [] => ([], [])
  | (nChunk, node) :: rest =>
      let r := reapLoop peerStates now rest
      if timedOut peerStates now (nChunk, node) then ((node, nChunk) :: r.1, r.2)
      else (r.1, (nChunk, node) :: r.2)

/-- `CSnapshotDownloadCoordinator::GetTimedOutRequests` (pow.cpp:2424-2452):
returns the reaped `(node, chunk)` list and erases those entries from the
in-flight map. -/
def CSnapshotDownloadCoordinator.GetTimedOutRequests (co : CSnapshotDownloadCoordinator)
    (now : Int) : List (Nat × Nat) × CSnapshotDownloadCoordinator :=
  let r := reapLoop co.mapPeerStates now co.mapChunkToNode
  (r.1, { co with mapChunkToNode := r.2 })

/-! ### UTXO hash verification (pow.cpp:2473-2582) -/

/-- `CCoinsStats` as used by `CalculateUTXOSetHash`. -/
structure CCoinsStats where
  hashBlock : Nat
  hashSerialized : Nat
  nHeight : Nat
  nTransactions : Nat
  nTransactionOutputs : Nat
  nTotalAmount : Int
deriving DecidableEq, Repr

/-- The environment of `CalculateUTXOSetHash`: `pcoinsTip` (`none` models
the NULL pointer) and, when present, the outcome of `GetStats` (`none`
models its failure). -/
structure UTXOEnv where
  pcoinsTip : Option (Option CCoinsStats)
deriving DecidableEq, Repr

/-- `CalculateUTXOSetHash` (pow.cpp:2493-2527): returns the zero `uint256`
when `pcoinsTip` is NULL or `GetStats` fails, else `stats.hashSerialized`.
A mismatch of `stats.hashBlock` against `blockHash` is only *logged* as a
warning (pow.cpp:2514-2518); `blockHash` does not affect the result. -/
def CalculateUTXOSetHash (env : UTXOEnv) (blockHash : Nat) : Nat :=
  match env.pcoinsTip with
  | none => 0
  | some statsOutcome =>
      match statsOutcome with
      | none => 0
      | some stats => stats.hashSerialized

/-- Modelled from the spec: `CSnapshotCheckpoint` is declared in the chain
parameters, which are not among the sources here; the spec fixes the
compile-time tuple `(height, block_hash, utxo_hash, tx_count)`, and
pow.cpp reads the fields `nHeight`, `hashBlock` and `hashUTXOSet`. -/
structure CSnapshotCheckpoint where
  nHeight : Int
  hashBlock : Nat
  hashUTXOSet : Nat
  nTransactions : Nat
deriving DecidableEq, Repr

/-- The checkpoint-search loop of `VerifySnapshotUTXOHash`
(pow.cpp:2545-2550): first checkpoint matching both height and block hash. -/
def findCheckpoint : List CSnapshotCheckpoint → Int → Nat → Option CSnapshotCheckpoint
  | [], _, _ => none
  | cp :: rest, h, bh =>
      if cp.nHeight = h ∧ cp.hashBlock = bh then some cp
      else findCheckpoint rest h bh

/-- `VerifySnapshotUTXOHash` (pow.cpp:2530-2582). -/
def VerifySnapshotUTXOHash (env : UTXOEnv) (checkpoints : List CSnapshotCheckpoint)
    (blockHash : Nat) (nHeight : Int) : Bool :=
  if checkpoints.isEmpty then true
  else
    match findCheckpoint checkpoints nHeight blockHash with
    | none => true
    | some cp =>
        if cp.hashUTXOSet = 0 then true
        else if CalculateUTXOSetHash env blockHash ≠ cp.hashUTXOSet then false
        else true

/-! ### Concrete scenarios and invariant predicates used by the theorems -/

/-- A store whose manifest lists one 1-byte chunk whose digest is the
(byte-reversed) single-pass SHA-256 of the byte `7`. -/
def c1Store : CSnapshotStore :=
  ⟨CSnapshotManifest.mk 2879438 0 1 [CSnapshotChunkInfo.mk 0 (bytesToNatBE (sha256 [7])) 1],
   fun _ => none⟩

/-- A store whose manifest lists one 2-byte chunk whose digest is the
(byte-reversed) single-pass SHA-256 of the bytes `7, 8`. -/
def c2Store : CSnapshotStore :=
  ⟨CSnapshotManifest.mk 2879438 0 2 [CSnapshotChunkInfo.mk 0 (bytesToNatBE (sha256 [7, 8])) 2],
   fun _ => none⟩

/-- Request times of the S3 scenario: 150 requests inside one minute, the
`i`-th (0-based) at time `2*i` for the first 30 (respecting the minimum
2-second spacing) and at time 60 for the rest. -/
def c3Time (i : Nat) : Int := if i < 30 then 2 * i else 60

/-- The S3 scenario trace: one peer (address 0) issues 150 chunk requests
within 60 seconds, each transfer completing before the next request. -/
def c3Events : List RLEvent :=
  ((List.range 150).map (fun i => [RLEvent.allow 0 i (c3Time i), RLEvent.complete])).flatten

/-- A coordinator in which peer 1 requested chunk 0 at time 0 and chunk 1 at
time 50. -/
def c6State : CSnapshotDownloadCoordinator :=
  (initCoordinator.RecordRequest 1 0 0).RecordRequest 1 1 50

/-- UTXO stats whose tip hash (9) differs from the checkpoint block hash (5)
but whose serialized hash (7) matches the checkpoint. -/
def c7Stats : CCoinsStats := ⟨9, 7, 0, 0, 0, 0⟩

def c7Env : UTXOEnv := ⟨some (some c7Stats)⟩

def c7Checkpoint : CSnapshotCheckpoint := ⟨1, 5, 7, 0⟩

/-- A manifest whose single chunk has size 5 while `nTotalSize` is 7. -/
def c8Manifest : CSnapshotManifest :=
  CSnapshotManifest.mk 1 0 7 [CSnapshotChunkInfo.mk 0 0 5]

/-- The keys of the received-chunks map. -/
def dsKeys (st : CSnapshotDownloadState) : List Nat :=
  st.mapChunksReceived.map Prod.fst

/-- Invariant of the download state reachable from `initDownloadState N`:
the total is `N` and the received map has strictly sorted keys below `N`. -/
def DSInv (N : Nat) (st : CSnapshotDownloadState) : Prop :=
  st.nTotalChunks = N ∧ List.Pairwise (· < ·) (dsKeys st) ∧ ∀ k ∈ dsKeys st, k < N

/-- Invariant of every reachable rate-limiter state under the default
limits: no peer is banned and no request window exceeds 30 entries. -/
def RLNoBanInv (rl : CSnapshotRateLimiter) : Prop :=
  rl.config = defaultRLConfig ∧
  ∀ p, (rl.mapPeerRequests p).bIsBanned = false ∧
    (rl.mapPeerRequests p).requestTimes.length ≤ 30

/-- Strengthened invariant tying a reachable rate-limiter state to the list
`adm` of `(peer, time)` pairs admitted so far, relative to a time `T` that
bounds every event time seen so far.  For each peer: it is not banned; its
window holds at most 30 entries; the window is a suffix of its admitted
times, the dropped prefix being more than 60 s older than `T`; its admitted
times are nondecreasing and at most `T`; window entries are bounded by
`nLastRequestTime`; and every 60-second interval holds at most 30 of its
admissions. -/
def RLWindowInv (T : Int) (rl : CSnapshotRateLimiter) (adm : List (Nat × Int)) : Prop :=
  rl.config = defaultRLConfig ∧
  ∀ p, (rl.mapPeerRequests p).bIsBanned = false ∧
    (rl.mapPeerRequests p).requestTimes.length ≤ 30 ∧
    (∃ k, k ≤ (admittedOf p adm).length ∧
        (rl.mapPeerRequests p).requestTimes = (admittedOf p adm).drop k ∧
        ∀ t ∈ (admittedOf p adm).take k, t + 60 < T) ∧
    List.Pairwise (· ≤ ·) (admittedOf p adm) ∧
    (∀ t ∈ admittedOf p adm, t ≤ T) ∧
    (∀ t ∈ (rl.mapPeerRequests p).requestTimes, t ≤ (rl.mapPeerRequests p).nLastRequestTime) ∧
    (∀ a : Int, windowCount p a adm ≤ 30)

/-! ## Theorems -/

/-! ### Manifest validity (C8, C10) -/

theorem chunksSequentialFrom_iff (l : List CSnapshotChunkInfo) (i : Nat) :
    chunksSequentialFrom i l = true ↔
      ∀ j, j < l.length → (l.getD j default).nChunkNumber = i + j := by
  induction l generalizing i with
  | nil => simp [chunksSequentialFrom]
  | cons c rest ih =>
    simp only [chunksSequentialFrom, Bool.and_eq_true, decide_eq_true_eq, ih]
    constructor
    · rintro ⟨hc, hrest⟩ j hj
      cases j with
      | zero => simpa using hc
      | succ j =>
        have h2 := hrest j (by simp at hj; omega)
        rw [List.getD_cons_succ, h2]
        omega
    · intro hall
      refine ⟨by simpa using hall 0 (by simp), fun j hj => ?_⟩
      have h2 := hall (j + 1) (by simp; omega)
      rw [List.getD_cons_succ] at h2
      rw [h2]
      omega

/-- C8 (counterexample): a manifest with one chunk of size 5 but
`nTotalSize = 7` passes `IsValid`, so `IsValid() = true` does *not* imply
that the chunk sizes sum to `nTotalSize` as the claim states. -/
theorem c8_sum_not_checked :
    c8Manifest.IsValid = true ∧
    (c8Manifest.vChunks.map (fun c => c.nSize)).sum ≠ c8Manifest.nTotalSize := by
  decide

/-- C8 (amended): every manifest accepted by `CSnapshotManifest::IsValid`
has a non-empty chunk list, positive height, *non-zero total size* and
gap-free chunk numbering `chunks[i].number = i`; the sum of the chunk sizes
is not checked against `nTotalSize`. -/
theorem c8_isValid_invariants (m : CSnapshotManifest) (h : m.IsValid = true) :
    m.vChunks ≠ [] ∧ 0 < m.nBlockHeight ∧ m.nTotalSize ≠ 0 ∧
    ∀ i, i < m.vChunks.length → (m.vChunks.getD i default).nChunkNumber = i := by
  unfold CSnapshotManifest.IsValid at h
  split_ifs at h with h1 h2 h3
  refine ⟨?_, Nat.pos_of_ne_zero h1, h3, fun i hi => ?_⟩
  · intro hnil
    simp [hnil] at h2
  · simpa using (chunksSequentialFrom_iff m.vChunks 0).mp h i hi

/-- C8 (witness for the amended theorem): a concrete valid manifest. -/
theorem c8_isValid_invariants_witness :
    (CSnapshotManifest.mk 1 0 5 [CSnapshotChunkInfo.mk 0 0 5]).IsValid = true ∧
    ((CSnapshotManifest.mk 1 0 5 [CSnapshotChunkInfo.mk 0 0 5]).vChunks ≠ [] ∧
      0 < (CSnapshotManifest.mk 1 0 5 [CSnapshotChunkInfo.mk 0 0 5]).nBlockHeight ∧
      (CSnapshotManifest.mk 1 0 5 [CSnapshotChunkInfo.mk 0 0 5]).nTotalSize ≠ 0 ∧
      ∀ i, i < (CSnapshotManifest.mk 1 0 5 [CSnapshotChunkInfo.mk 0 0 5]).vChunks.length →
        ((CSnapshotManifest.mk 1 0 5 [CSnapshotChunkInfo.mk 0 0 5]).vChunks.getD i
            default).nChunkNumber = i) :=
  ⟨by decide, c8_isValid_invariants (CSnapshotManifest.mk 1 0 5 [CSnapshotChunkInfo.mk 0 0 5])
      (by decide)⟩

set_option maxRecDepth 40000 in
/-- C10: the hard-coded blockchain manifest has 171 chunks, every chunk of
size 52428800 except the last of size 40118312, the sizes sum to
`nTotalSize = 8953014312`, and it passes `IsValid`; the hard-coded params
manifest has `nBlockHeight = 0` and is rejected by `IsValid`. -/
theorem c10_hardcoded_manifests :
    GetHardcodedManifest.GetChunkCount = 171 ∧
    GetHardcodedManifest.vChunks.dropLast.all (fun c => c.nSize == 52428800) = true ∧
    GetHardcodedManifest.vChunks.getLast?.map (fun c => c.nSize) = some 40118312 ∧
    (GetHardcodedManifest.vChunks.map (fun c => c.nSize)).sum = 8953014312 ∧
    GetHardcodedManifest.nTotalSize = 8953014312 ∧
    GetHardcodedManifest.IsValid = true ∧
    GetHardcodedParamsManifest.nBlockHeight = 0 ∧
    GetHardcodedParamsManifest.IsValid = false := by
  decide

/-! ### UTXO hash verification (C7) -/

/-- C7 (counterexample): the stats tip hash (9) differs from the checkpoint
block hash (5), which the claim says must cause failure, but
`VerifySnapshotUTXOHash` succeeds because only `hashSerialized` is compared
(the tip-hash mismatch is merely logged inside `CalculateUTXOSetHash`). -/
theorem c7_tip_hash_not_checked :
    VerifySnapshotUTXOHash c7Env [c7Checkpoint] 5 1 = true ∧
    c7Env.pcoinsTip = some (some c7Stats) ∧
    c7Stats.hashBlock ≠ 5 ∧
    c7Checkpoint.nHeight = 1 ∧ c7Checkpoint.hashBlock = 5 ∧
    c7Checkpoint.hashUTXOSet ≠ 0 := by
  decide

/-- C7 (amended): `VerifySnapshotUTXOHash` succeeds iff no checkpoint
matches `(height, block_hash)`, or the matching checkpoint's UTXO hash is
the zero sentinel, or the computed `hash_serialized` equals the checkpoint's
UTXO hash.  The tip hash reported by the UTXO-stats computation is not
cross-checked (only logged as a warning). -/
theorem c7_utxo_hash_verification (env : UTXOEnv) (cps : List CSnapshotCheckpoint)
    (bh : Nat) (h : Int) :
    VerifySnapshotUTXOHash env cps bh h = true ↔
      findCheckpoint cps h bh = none ∨
      ∃ cp, findCheckpoint cps h bh = some cp ∧
        (cp.hashUTXOSet = 0 ∨ CalculateUTXOSetHash env bh = cp.hashUTXOSet) := by
  unfold VerifySnapshotUTXOHash
  by_cases hemp : cps.isEmpty
  · have hnil : cps = [] := by
      cases cps with
      | nil => rfl
      | cons a l => simp [List.isEmpty] at hemp
    subst hnil
    simp [findCheckpoint]
  · simp only [hemp, if_false]
    cases hfc : findCheckpoint cps h bh with
    | none => simp
    | some cp =>
      by_cases h0 : cp.hashUTXOSet = 0
      · simp [h0]
      · by_cases hcalc : CalculateUTXOSetHash env bh = cp.hashUTXOSet
        · simp [h0, hcalc]
        · simp [h0, hcalc]

/-! ### Timeout reaping (C6) -/

theorem reapLoop_eq_filter (ps : List (Nat × PeerDownloadState)) (now : Int)
    (l : List (Nat × Nat)) :
    reapLoop ps now l =
      ((l.filter (timedOut ps now)).map (fun e => (e.2, e.1)),
       l.filter (fun e => ! timedOut ps now e)) := by
  induction l with
  | nil => rfl
  | cons e rest ih =>
    cases e with
    | mk nChunk node =>
      simp only [reapLoop, ih]
      by_cases ht : timedOut ps now (nChunk, node)
      · simp [ht, List.filter_cons]
      · simp [ht, List.filter_cons]

/-- C6 (counterexample): peer 1 requested chunk 0 at time 0 and chunk 1 at
time 50; at time 70 chunk 0 has been in flight for 70 s, longer than the
60 s timeout, so by the claim it must be returned and removed — but
`GetTimedOutRequests` returns nothing and keeps both entries, because the
code compares against the *peer's* latest request time (50), not the time
chunk 0's request was recorded (0). -/
theorem c6_timeout_measured_from_peer :
    (c6State.GetTimedOutRequests 70).1 = [] ∧
    mapFind c6State.mapChunkToNode 0 = some 1 ∧
    (c6State.GetTimedOutRequests 70).2.mapChunkToNode = c6State.mapChunkToNode ∧
    (70 : Int) - 0 > 60 := by
  decide

/-- C6 (amended): `GetTimedOutRequests` returns exactly the in-flight
`(peer, chunk)` pairs whose *peer's most recent recorded request*
(`nLastRequestTime`) is more than 60 s old — not the time that chunk's own
request was recorded — skipping pairs whose peer has no recorded state, and
removes exactly the returned pairs from the in-flight map. -/
theorem c6_timed_out_requests (co : CSnapshotDownloadCoordinator) (now : Int) :
    (co.GetTimedOutRequests now).1 =
      (co.mapChunkToNode.filter (timedOut co.mapPeerStates now)).map (fun e => (e.2, e.1)) ∧
    (co.GetTimedOutRequests now).2.mapChunkToNode =
      co.mapChunkToNode.filter (fun e => ! timedOut co.mapPeerStates now e) ∧
    (co.GetTimedOutRequests now).2.mapPeerStates = co.mapPeerStates := by
  unfold CSnapshotDownloadCoordinator.GetTimedOutRequests
  rw [reapLoop_eq_filter]
  exact ⟨rfl, rfl, rfl⟩

/-! ### Chunk verification and storage (C1, C2) -/

theorem verifyChunk_iff (store : CSnapshotStore) (n : Nat) (b : List Nat) :
    store.VerifyChunk n b = true ↔
      n < store.manifest.vChunks.length ∧
      b.length = (store.manifest.vChunks.getD n default).nSize ∧
      bytesToNatBE (sha256 b) = (store.manifest.vChunks.getD n default).hashChunk := by
  unfold CSnapshotStore.VerifyChunk
  split
  · rename_i h
    have hget : store.manifest.vChunks.getD n default = store.manifest.vChunks.get ⟨n, h⟩ := by
      simp [List.getD_eq_getElem?_getD, List.getElem?_eq_getElem h]
    dsimp only
    rw [hget]
    by_cases h1 : b.length = (store.manifest.vChunks.get ⟨n, h⟩).nSize
    · by_cases h2 :
          bytesToNatBE (sha256 b) = (store.manifest.vChunks.get ⟨n, h⟩).hashChunk
      · simp [h, h1, h2]
      · simp [h, h1, h2]
    · simp [h, h1]
  · rename_i h
    simp [h]

/-- C1: `VerifyChunk(n, b)` succeeds iff `n` indexes the manifest chunk
list, `b` has exactly the manifest size, and the byte-reversed single-pass
SHA-256 digest of `b` (represented here by the big-endian value
`bytesToNatBE (sha256 b)`, which is what the reversed byte copy into the
little-endian `uint256` produces) equals `manifest.chunks[n].digest`;
consequently every chunk accepted by `SaveChunk` hashes to the manifest
digest under this byte orientation. -/
theorem c1_verify_chunk :
    (∀ (store : CSnapshotStore) (n : Nat) (b : List Nat),
        store.VerifyChunk n b = true ↔
          n < store.manifest.vChunks.length ∧
          b.length = (store.manifest.vChunks.getD n default).nSize ∧
          bytesToNatBE (sha256 b) = (store.manifest.vChunks.getD n default).hashChunk) ∧
    (∀ (store : CSnapshotStore) (n : Nat) (b : List Nat) (io : WriteOutcome),
        (store.SaveChunk n b io).1 = true →
          bytesToNatBE (sha256 b) = (store.manifest.vChunks.getD n default).hashChunk) := by
  refine ⟨verifyChunk_iff, fun store n b io h => ?_⟩
  unfold CSnapshotStore.SaveChunk at h
  by_cases hge : n ≥ store.manifest.GetChunkCount
  · rw [if_pos hge] at h
    exact absurd h (by simp)
  · rw [if_neg hge] at h
    by_cases hv : store.VerifyChunk n b = true
    · exact ((verifyChunk_iff store n b).mp hv).2.2
    · rw [if_pos hv] at h
      exact absurd h (by simp)

set_option maxRecDepth 40000 in
/-- C1 (witness): a saved chunk on a concrete store with matching digest. -/
theorem c1_verify_chunk_witness :
    (c1Store.SaveChunk 0 [7] WriteOutcome.ok).1 = true ∧
    bytesToNatBE (sha256 [7]) = (c1Store.manifest.vChunks.getD 0 default).hashChunk :=
  ⟨by decide, c1_verify_chunk.2 c1Store 0 [7] WriteOutcome.ok (by decide)⟩

set_option maxRecDepth 40000 in
/-- C2 (counterexample): on a store whose manifest accepts the 2-byte chunk
`[7, 8]`, a write during which an exception escapes after 1 byte makes
`SaveChunk` return failure while the partially written chunk file remains on
disk — the `catch` block does not delete it, contradicting the claim that a
failing `SaveChunk` leaves no partial chunk file. -/
theorem c2_partial_file_not_deleted :
    (c2Store.SaveChunk 0 [7, 8] (WriteOutcome.writeExc 1)).1 = false ∧
    (c2Store.SaveChunk 0 [7, 8] (WriteOutcome.writeExc 1)).2.chunkFiles 0 = some [7] := by
  decide

/-- C2 (amended): `SaveChunk` performs no observable filesystem write unless
both the bound check and `VerifyChunk`'s size and digest checks succeed; but
when a write error occurs after the file is opened, the failure return
leaves the partially written chunk file on disk (nothing is deleted). -/
theorem c2_save_chunk_error_handling :
    (∀ (store : CSnapshotStore) (n : Nat) (b : List Nat) (io : WriteOutcome),
        (store.manifest.GetChunkCount ≤ n ∨ store.VerifyChunk n b = false) →
          (store.SaveChunk n b io).1 = false ∧
          (store.SaveChunk n b io).2.chunkFiles = store.chunkFiles) ∧
    (∀ (store : CSnapshotStore) (n : Nat) (b : List Nat) (k : Nat),
        n < store.manifest.GetChunkCount → store.VerifyChunk n b = true →
          (store.SaveChunk n b (WriteOutcome.writeExc k)).1 = false ∧
          (store.SaveChunk n b (WriteOutcome.writeExc k)).2.chunkFiles n = some (b.take k)) := by
  constructor
  · intro store n b io hfail
    unfold CSnapshotStore.SaveChunk
    by_cases hge : n ≥ store.manifest.GetChunkCount
    · rw [if_pos hge]
      exact ⟨rfl, rfl⟩
    · rw [if_neg hge]
      rcases hfail with hge2 | hver
      · exact absurd hge2 hge
      · rw [if_pos (by simp [hver])]
        exact ⟨rfl, rfl⟩
  · intro store n b k hn hver
    unfold CSnapshotStore.SaveChunk
    rw [if_neg (by omega), if_neg (by simp [hver])]
    exact ⟨rfl, by simp⟩

set_option maxRecDepth 40000 in
/-- C2 (witness for the amended theorem): both branches at concrete
inputs — a rejected chunk writes nothing, and an accepted chunk whose write
fails midway leaves the partial file. -/
theorem c2_save_chunk_error_handling_witness :
    (c2Store.VerifyChunk 0 [9] = false ∧
      (c2Store.SaveChunk 0 [9] WriteOutcome.ok).1 = false ∧
      (c2Store.SaveChunk 0 [9] WriteOutcome.ok).2.chunkFiles = c2Store.chunkFiles) ∧
    (0 < c2Store.manifest.GetChunkCount ∧ c2Store.VerifyChunk 0 [7, 8] = true ∧
      (c2Store.SaveChunk 0 [7, 8] (WriteOutcome.writeExc 0)).1 = false ∧
      (c2Store.SaveChunk 0 [7, 8] (WriteOutcome.writeExc 0)).2.chunkFiles 0 = some ([7, 8].take 0)) :=
  ⟨⟨by decide,
    (c2_save_chunk_error_handling.1 c2Store 0 [9] WriteOutcome.ok (Or.inr (by decide)))⟩,
   ⟨by decide, by decide,
    (c2_save_chunk_error_handling.2 c2Store 0 [7, 8] 0 (by decide) (by decide))⟩⟩

/-! ### Global concurrency cap (C5) -/

theorem allowRequest_active (rl : CSnapshotRateLimiter) (addr c : Nat) (now : Int) :
    ((rl.AllowRequest addr c now).2.nActiveTransfers = rl.nActiveTransfers ∧
     (rl.AllowRequest addr c now).2.config = rl.config) ∨
    (rl.nActiveTransfers < rl.config.nMaxConcurrentTransfers ∧
     (rl.AllowRequest addr c now).2.nActiveTransfers = rl.nActiveTransfers + 1 ∧
     (rl.AllowRequest addr c now).2.config = rl.config) := by
  simp only [CSnapshotRateLimiter.AllowRequest]
  split_ifs with h1 h2 h3 h4 h5 h6 <;>
    first
      | exact Or.inl ⟨rfl, rfl⟩
      | exact Or.inr ⟨by omega, rfl, rfl⟩

theorem rlStep_config (rl : CSnapshotRateLimiter) (e : RLEvent) :
    (rlStep rl e).config = rl.config := by
  cases e with
  | allow a c t =>
    rcases allowRequest_active rl a c t with ⟨_, hc⟩ | ⟨_, _, hc⟩ <;> exact hc
  | complete =>
    simp only [rlStep, CSnapshotRateLimiter.CompleteTransfer]
    split_ifs <;> rfl
  | served a c b t => rfl
  | cleanup t =>
    simp only [rlStep, CSnapshotRateLimiter.Cleanup]
    split_ifs <;> rfl

theorem rlStep_active (rl : CSnapshotRateLimiter) (e : RLEvent)
    (h : rl.nActiveTransfers ≤ rl.config.nMaxConcurrentTransfers) :
    (rlStep rl e).nActiveTransfers ≤ (rlStep rl e).config.nMaxConcurrentTransfers := by
  rw [rlStep_config]
  cases e with
  | allow a c t =>
    rcases allowRequest_active rl a c t with ⟨ha, _⟩ | ⟨hlt, ha, _⟩
    · simp only [rlStep]
      omega
    · simp only [rlStep]
      omega
  | complete =>
    simp only [rlStep, CSnapshotRateLimiter.CompleteTransfer]
    split_ifs with h1
    · simp only []
      omega
    · exact h
  | served a c b t => exact h
  | cleanup t =>
    simp only [rlStep, CSnapshotRateLimiter.Cleanup]
    split_ifs <;> exact h

theorem runRL_active (evs : List RLEvent) (rl : CSnapshotRateLimiter)
    (h : rl.nActiveTransfers ≤ rl.config.nMaxConcurrentTransfers) :
    (runRL rl evs).nActiveTransfers ≤ (runRL rl evs).config.nMaxConcurrentTransfers := by
  induction evs generalizing rl with
  | nil => exact h
  | cons e rest ih => exact ih (rlStep rl e) (rlStep_active rl e h)

theorem runRL_config (evs : List RLEvent) (rl : CSnapshotRateLimiter) :
    (runRL rl evs).config = rl.config := by
  induction evs generalizing rl with
  | nil => rfl
  | cons e rest ih => rw [runRL, List.foldl_cons, ← runRL, ih, rlStep_config]

/-- C5: from the initial state, under any call sequence the
`nActiveTransfers` counter stays between 0 and the default
`nMaxConcurrentTransfers = 25` (the counter is a natural number, and the
second conjunct shows `CompleteTransfer` is exactly truncated decrement:
it never goes below zero). -/
theorem c5_active_transfers_bounded :
    (∀ (evs : List RLEvent) (now0 : Int),
        (runRL (initRateLimiter now0) evs).nActiveTransfers ≤ 25) ∧
    (∀ rl : CSnapshotRateLimiter,
        rl.CompleteTransfer.nActiveTransfers = rl.nActiveTransfers - 1) := by
  constructor
  · intro evs now0
    have h := runRL_active evs (initRateLimiter now0)
      (by simp [initRateLimiter, defaultRLConfig])
    rwa [runRL_config] at h
  · intro rl
    unfold CSnapshotRateLimiter.CompleteTransfer
    split_ifs with h
    · rfl
    · omega

/-! ### Download state (C9) -/

theorem mapFind_eq_some_mem {β : Type} (l : List (Nat × β)) (k : Nat) (v : β)
    (h : mapFind l k = some v) : (k, v) ∈ l := by
  induction l with
  | nil => simp [mapFind] at h
  | cons p rest ih =>
    cases p with
    | mk k2 v2 =>
      unfold mapFind at h
      split_ifs at h with heq
      · cases h
        subst heq
        exact List.mem_cons_self _ _
      · exact List.mem_cons_of_mem _ (ih h)

theorem mem_keys_mapInsert {β : Type} (l : List (Nat × β)) (k : Nat) (v : β) (x : Nat)
    (hx : x ∈ (mapInsert l k v).map Prod.fst) : x = k ∨ x ∈ l.map Prod.fst := by
  induction l with
  | nil => simpa [mapInsert] using hx
  | cons p rest ih =>
    cases p with
    | mk k2 v2 =>
      unfold mapInsert at hx
      split_ifs at hx with h1 h2
      · subst h1
        simpa using hx
      · simpa using hx
      · rw [List.map_cons, List.mem_cons] at hx
        rcases hx with rfl | hx2
        · right
          rw [List.map_cons, List.mem_cons]
          exact Or.inl rfl
        · rcases ih hx2 with h | h
          · exact Or.inl h
          · right
            rw [List.map_cons, List.mem_cons]
            exact Or.inr h

theorem pairwise_keys_mapInsert {β : Type} (l : List (Nat × β)) (k : Nat) (v : β)
    (h : List.Pairwise (· < ·) (l.map Prod.fst)) :
    List.Pairwise (· < ·) ((mapInsert l k v).map Prod.fst) := by
  induction l with
  | nil => simp [mapInsert]
  | cons p rest ih =>
    cases p with
    | mk k2 v2 =>
      rw [List.map_cons, List.pairwise_cons] at h
      obtain ⟨hk2, hrest⟩ := h
      unfold mapInsert
      split_ifs with h1 h2
      · subst h1
        rw [List.map_cons, List.pairwise_cons]
        exact ⟨hk2, hrest⟩
      · rw [List.map_cons, List.map_cons]
        refine List.Pairwise.cons ?_ ?_
        · intro y hy
          rcases List.mem_cons.mp hy with rfl | hy2
          · exact h2
          · exact lt_trans h2 (hk2 y hy2)
        · rw [List.pairwise_cons]
          exact ⟨hk2, hrest⟩
      · have hk2k : k2 < k := by omega
        rw [List.map_cons]
        refine List.Pairwise.cons ?_ (ih hrest)
        intro y hy
        rcases mem_keys_mapInsert rest k v y hy with rfl | hy2
        · exact hk2k
        · exact hk2 y hy2

theorem pairwiseLt_length_le (l : List Nat) (N : Nat)
    (hs : List.Pairwise (· < ·) l) (hb : ∀ x ∈ l, x < N) : l.length ≤ N := by
  have hnodup : l.Nodup := hs.imp Nat.ne_of_lt
  have hsub : l ⊆ List.range N := fun x hx => List.mem_range.mpr (hb x hx)
  have hsp := List.subperm_of_subset hnodup hsub
  simpa using hsp.length_le

theorem markChunkReceived_map (st : CSnapshotDownloadState) (n : Nat) (now : Int) :
    (st.MarkChunkReceived n now).mapChunksReceived =
      if n < st.nTotalChunks then mapInsert st.mapChunksReceived n true
      else st.mapChunksReceived := by
  simp only [CSnapshotDownloadState.MarkChunkReceived]
  by_cases h : n < st.nTotalChunks
  · simp only [h, if_true]
    split_ifs <;> rfl
  · simp [h]

theorem markChunkReceived_total (st : CSnapshotDownloadState) (n : Nat) (now : Int) :
    (st.MarkChunkReceived n now).nTotalChunks = st.nTotalChunks := by
  simp only [CSnapshotDownloadState.MarkChunkReceived]
  split_ifs <;> rfl

theorem dsInv_step (N : Nat) (st : CSnapshotDownloadState) (e : DSEvent)
    (h : DSInv N st) : DSInv N (dsStep st e) := by
  obtain ⟨hN, hsort, hbound⟩ := h
  cases e with
  | mark n t =>
    refine ⟨by rw [dsStep, markChunkReceived_total, hN], ?_, ?_⟩
    · unfold dsKeys
      rw [dsStep, markChunkReceived_map]
      split_ifs with hlt
      · exact pairwise_keys_mapInsert _ _ _ hsort
      · exact hsort
    · intro k hk
      unfold dsKeys at hk
      rw [dsStep, markChunkReceived_map] at hk
      split_ifs at hk with hlt
      · rcases mem_keys_mapInsert _ _ _ _ hk with rfl | hk2
        · omega
        · exact hbound k hk2
      · exact hbound k hk
  | record n t => exact ⟨hN, hsort, hbound⟩

theorem dsInv_foldl (N : Nat) (evs : List DSEvent) (st : CSnapshotDownloadState)
    (h : DSInv N st) : DSInv N (evs.foldl dsStep st) := by
  induction evs generalizing st with
  | nil => exact h
  | cons e rest ih => exact ih (dsStep st e) (dsInv_step N st e h)

theorem dsInv_run (N : Nat) (evs : List DSEvent) : DSInv N (runDS N evs) :=
  dsInv_foldl N evs (initDownloadState N) ⟨rfl, List.Pairwise.nil, by simp [initDownloadState, dsKeys]⟩

theorem isChunkReceived_lt (N : Nat) (st : CSnapshotDownloadState) (n : Nat)
    (h : DSInv N st) (hr : st.IsChunkReceived n = true) : n < N := by
  unfold CSnapshotDownloadState.IsChunkReceived at hr
  cases hf : mapFind st.mapChunksReceived n with
  | none => rw [hf] at hr; simp at hr
  | some b =>
    have hmem := mapFind_eq_some_mem _ _ _ hf
    exact h.2.2 n (List.mem_map.mpr ⟨(n, b), hmem, rfl⟩)

theorem getReceivedCount_le (N : Nat) (st : CSnapshotDownloadState)
    (h : DSInv N st) : st.GetReceivedCount ≤ N := by
  have h1 : st.GetReceivedCount ≤ st.mapChunksReceived.length :=
    List.length_filter_le _ _
  have h2 : st.mapChunksReceived.length = (dsKeys st).length := by
    simp [dsKeys]
  have h3 : (dsKeys st).length ≤ N := pairwiseLt_length_le _ N h.2.1 h.2.2
  omega

theorem isComplete_spec (N : Nat) (st : CSnapshotDownloadState)
    (h : DSInv N st) (hc : st.IsComplete = true) :
    st.GetReceivedCount = N ∧ st.GetNextChunkToRequest = N := by
  have hall : ∀ i, i < N → st.IsChunkReceived i = true := by
    intro i hi
    have := List.all_eq_true.mp hc i (by rw [h.1]; exact List.mem_range.mpr hi)
    simpa using this
  constructor
  · have hlen : st.GetReceivedCount =
        ((st.mapChunksReceived.filter (fun p => p.2)).map Prod.fst).length := by
      simp [CSnapshotDownloadState.GetReceivedCount]
    have hsubl : List.Sublist
        ((st.mapChunksReceived.filter (fun p => p.2)).map Prod.fst) (dsKeys st) :=
      (List.filter_sublist _).map Prod.fst
    have hsort2 : List.Pairwise (· < ·)
        ((st.mapChunksReceived.filter (fun p => p.2)).map Prod.fst) :=
      h.2.1.sublist hsubl
    have hbound2 : ∀ x ∈ (st.mapChunksReceived.filter (fun p => p.2)).map Prod.fst,
        x < N := fun x hx => h.2.2 x (hsubl.subset hx)
    have hle : ((st.mapChunksReceived.filter (fun p => p.2)).map Prod.fst).length ≤ N :=
      pairwiseLt_length_le _ N hsort2 hbound2
    have hsup : List.range N ⊆
        (st.mapChunksReceived.filter (fun p => p.2)).map Prod.fst := by
      intro i hi
      have hrec := hall i (List.mem_range.mp hi)
      unfold CSnapshotDownloadState.IsChunkReceived at hrec
      cases hf : mapFind st.mapChunksReceived i with
      | none => rw [hf] at hrec; simp at hrec
      | some b =>
        rw [hf] at hrec
        subst hrec
        have hmem := mapFind_eq_some_mem _ _ _ hf
        exact List.mem_map.mpr ⟨(i, true), List.mem_filter.mpr ⟨hmem, rfl⟩, rfl⟩
    have hge : N ≤ ((st.mapChunksReceived.filter (fun p => p.2)).map Prod.fst).length := by
      have hsp := List.subperm_of_subset (List.nodup_range N) hsup
      simpa using hsp.length_le
    omega
  · unfold CSnapshotDownloadState.GetNextChunkToRequest
    have hnone : (List.range st.nTotalChunks).find?
        (fun i => ! st.IsChunkReceived i) = none := by
      rw [List.find?_eq_none]
      intro x hx
      rw [h.1] at hx
      simp [hall x (List.mem_range.mp hx)]
    rw [hnone, Option.getD_none, h.1]

/-- C9: `MarkChunkReceived(n)` with `n ≥ nTotalChunks` is a no-op; under any
sequence of operations from the initial state, `IsChunkReceived(n)` holds
only for `n < N`, `GetReceivedCount()` never exceeds `N`, and
`IsComplete() = true` forces `GetReceivedCount() = N` and
`GetNextChunkToRequest() = N`. -/
theorem c9_download_state_invariants :
    (∀ (st : CSnapshotDownloadState) (n : Nat) (now : Int),
        st.nTotalChunks ≤ n → st.MarkChunkReceived n now = st) ∧
    (∀ (N : Nat) (evs : List DSEvent) (n : Nat),
        (runDS N evs).IsChunkReceived n = true → n < N) ∧
    (∀ (N : Nat) (evs : List DSEvent), (runDS N evs).GetReceivedCount ≤ N) ∧
    (∀ (N : Nat) (evs : List DSEvent), (runDS N evs).IsComplete = true →
        (runDS N evs).GetReceivedCount = N ∧ (runDS N evs).GetNextChunkToRequest = N) := by
  refine ⟨?_, ?_, ?_, ?_⟩
  · intro st n now hge
    unfold CSnapshotDownloadState.MarkChunkReceived
    rw [if_neg (by omega)]
  · intro N evs n hr
    exact isChunkReceived_lt N _ n (dsInv_run N evs) hr
  · intro N evs
    exact getReceivedCount_le N _ (dsInv_run N evs)
  · intro N evs hc
    exact isComplete_spec N _ (dsInv_run N evs) hc

/-- C9 (witness): concrete instances of every hypothesis-bearing part. -/
theorem c9_download_state_invariants_witness :
    ((initDownloadState 3).nTotalChunks ≤ 5 ∧
      (initDownloadState 3).MarkChunkReceived 5 0 = initDownloadState 3) ∧
    ((runDS 2 [DSEvent.mark 0 4, DSEvent.mark 1 9]).IsChunkReceived 1 = true ∧ 1 < 2) ∧
    ((runDS 2 [DSEvent.mark 0 4, DSEvent.mark 1 9]).IsComplete = true ∧
      (runDS 2 [DSEvent.mark 0 4, DSEvent.mark 1 9]).GetReceivedCount = 2 ∧
      (runDS 2 [DSEvent.mark 0 4, DSEvent.mark 1 9]).GetNextChunkToRequest = 2) :=
  ⟨⟨by decide, c9_download_state_invariants.1 (initDownloadState 3) 5 0 (by decide)⟩,
   ⟨by decide, c9_download_state_invariants.2.1 2 [DSEvent.mark 0 4, DSEvent.mark 1 9] 1 (by decide)⟩,
   ⟨by decide,
    c9_download_state_invariants.2.2.2 2 [DSEvent.mark 0 4, DSEvent.mark 1 9] (by decide)⟩⟩

/-! ### Rate limiter: window cleanup and the shape of `AllowRequest` -/

theorem dropOldRequests_length_le (now : Int) (l : List Int) :
    (dropOldRequests now l).length ≤ l.length := by
  induction l with
  | nil => simp [dropOldRequests]
  | cons t rest ih =>
    unfold dropOldRequests
    split_ifs
    · exact le_trans ih (by simp)
    · simp

theorem dropOldRequests_spec (now : Int) (l : List Int) :
    ∃ j, j ≤ l.length ∧ dropOldRequests now l = l.drop j ∧
      ∀ t ∈ l.take j, now - t > 60 := by
  induction l with
  | nil => exact ⟨0, Nat.le_refl 0, rfl, by simp⟩
  | cons t rest ih =>
    unfold dropOldRequests
    split_ifs with h
    · obtain ⟨j, hj, hdrop, hcond⟩ := ih
      refine ⟨j + 1, by simpa using Nat.succ_le_succ hj, by simpa using hdrop, ?_⟩
      intro u hu
      rw [List.take_succ_cons] at hu
      rcases List.mem_cons.mp hu with rfl | hu2
      · exact h
      · exact hcond u hu2
    · exact ⟨0, Nat.zero_le _, rfl, by simp⟩

theorem setPeer_eval (rl : CSnapshotRateLimiter) (addr : Nat) (info : PeerRequestInfo)
    (p : Nat) :
    (rl.setPeer addr info).mapPeerRequests p =
      if p = addr then info else rl.mapPeerRequests p := rfl

/-- Case analysis of `AllowRequest` in a reachable state (peer not banned,
window within the default cap): the call either rejects with
capacity/tooFast/duplicate leaving the peer record unchanged, or rejects
with rateLimit writing back the cleaned window (and never setting the ban,
since the window size is at most 30 < 100), or admits. -/
theorem allowRequest_spec (rl : CSnapshotRateLimiter) (addr c : Nat) (now : Int)
    (hban : (rl.mapPeerRequests addr).bIsBanned = false)
    (hlen : (rl.mapPeerRequests addr).requestTimes.length ≤ 30)
    (hcfg : rl.config = defaultRLConfig) :
    (∃ r, (r = RejectReason.capacity ∨ r = RejectReason.tooFast ∨ r = RejectReason.duplicate) ∧
       rl.AllowRequest addr c now = (some r, rl.setPeer addr (rl.mapPeerRequests addr))) ∨
    (30 ≤ (dropOldRequests now (rl.mapPeerRequests addr).requestTimes).length ∧
       rl.AllowRequest addr c now = (some RejectReason.rateLimit,
         rl.setPeer addr { rl.mapPeerRequests addr with
           requestTimes := dropOldRequests now (rl.mapPeerRequests addr).requestTimes })) ∨
    ((dropOldRequests now (rl.mapPeerRequests addr).requestTimes).length < 30 ∧
       rl.nActiveTransfers < 25 ∧
       rl.AllowRequest addr c now = (none,
         { rl.setPeer addr { rl.mapPeerRequests addr with
             requestTimes := dropOldRequests now (rl.mapPeerRequests addr).requestTimes ++ [now],
             nLastRequestTime := now,
             nTotalRequests := (rl.mapPeerRequests addr).nTotalRequests + 1 }
           with nActiveTransfers := rl.nActiveTransfers + 1 })) := by
  have hdl := dropOldRequests_length_le now (rl.mapPeerRequests addr).requestTimes
  simp only [CSnapshotRateLimiter.AllowRequest, hban, hcfg, defaultRLConfig,
    Bool.false_eq_true, false_and, if_false]
  split_ifs with h1 h2 h3 h4 h5
  · exact Or.inl ⟨RejectReason.capacity, Or.inl rfl, rfl⟩
  · exact Or.inl ⟨RejectReason.tooFast, Or.inr (Or.inl rfl), rfl⟩
  · exact Or.inl ⟨RejectReason.duplicate, Or.inr (Or.inr rfl), rfl⟩
  · exact absurd h5 (by omega)
  · exact Or.inr (Or.inl ⟨by omega, rfl⟩)
  · exact Or.inr (Or.inr ⟨by omega, by omega, rfl⟩)

theorem rlNoBanInv_step (rl : CSnapshotRateLimiter) (e : RLEvent)
    (h : RLNoBanInv rl) : RLNoBanInv (rlStep rl e) := by
  obtain ⟨hcfg, hpeers⟩ := h
  cases e with
  | allow a c t =>
    rcases allowRequest_spec rl a c t (hpeers a).1 (hpeers a).2 hcfg with
      ⟨r, _, heq⟩ | ⟨hge, heq⟩ | ⟨hlt, hact, heq⟩
    · refine ⟨by simp only [rlStep, heq]; exact hcfg, fun p => ?_⟩
      simp only [rlStep, heq, setPeer_eval]
      split_ifs with hp
      · exact hpeers a
      · exact hpeers p
    · refine ⟨by simp only [rlStep, heq]; exact hcfg, fun p => ?_⟩
      simp only [rlStep, heq, setPeer_eval]
      split_ifs with hp
      · exact ⟨(hpeers a).1, le_trans (dropOldRequests_length_le t _) (hpeers a).2⟩
      · exact hpeers p
    · refine ⟨by simp only [rlStep, heq]; exact hcfg, fun p => ?_⟩
      simp only [rlStep, heq, setPeer_eval]
      split_ifs with hp
      · refine ⟨(hpeers a).1, ?_⟩
        simp only [List.length_append, List.length_cons, List.length_nil]
        omega
      · exact hpeers p
  | complete =>
    refine ⟨by rw [rlStep_config]; exact hcfg, fun p => ?_⟩
    simp only [rlStep, CSnapshotRateLimiter.CompleteTransfer]
    split_ifs
    · exact hpeers p
    · exact hpeers p
  | served a c b t =>
    refine ⟨by rw [rlStep_config]; exact hcfg, fun p => ?_⟩
    simp only [rlStep, CSnapshotRateLimiter.RecordServed, setPeer_eval]
    split_ifs with hp
    · exact hpeers a
    · exact hpeers p
  | cleanup t =>
    refine ⟨by rw [rlStep_config]; exact hcfg, fun p => ?_⟩
    simp only [rlStep, CSnapshotRateLimiter.Cleanup]
    split_ifs
    · dsimp only
      split_ifs with hp
      · exact ⟨rfl, by simp [initPeerRequestInfo]⟩
      · exact hpeers p
    · dsimp only
      split_ifs with hp
      · exact ⟨rfl, by simp [initPeerRequestInfo]⟩
      · exact hpeers p

theorem rlNoBanInv_run (rl : CSnapshotRateLimiter) (evs : List RLEvent)
    (h : RLNoBanInv rl) : RLNoBanInv (runRL rl evs) := by
  induction evs generalizing rl with
  | nil => exact h
  | cons e rest ih => exact ih (rlStep rl e) (rlNoBanInv_step rl e h)

set_option maxRecDepth 100000 in
/-- C3 (counterexample): in the S3 scenario — one peer, 150 chunk requests
within 60 seconds, each transfer completing — the claim predicts requests
31..99 rejected by the rate limit and `banned_until` set at request 100.
In fact the result of request 100 (index 99) is a plain rate-limit
rejection and the peer is never banned: only *admitted* requests are
appended to the 60-second window, so the window never exceeds
30 = max_chunks_per_peer_per_minute and never reaches ban_threshold = 100. -/
theorem c3_ban_never_set_in_scenario :
    (runRLRes (initRateLimiter 0) c3Events).2.getD 99 none = some RejectReason.rateLimit ∧
    ((runRLRes (initRateLimiter 0) c3Events).1.mapPeerRequests 0).bIsBanned = false ∧
    ((runRLRes (initRateLimiter 0) c3Events).1.mapPeerRequests 0).nBanUntil = 0 := by
  decide

set_option maxRecDepth 100000 in
/-- C3 (amended): under the default limits no reachable rate-limiter state
ever has a banned peer (the window stores only admitted requests, so its
size stays at most 30 < ban_threshold = 100 and the ban branch is
unreachable); in the 150-request scenario the first 30 requests are
admitted and requests 31..150 are all rejected with the rate-limit reason,
with no ban ever set. -/
theorem c3_rate_limit_without_ban :
    (∀ (evs : List RLEvent) (now0 : Int) (p : Nat),
        ((runRL (initRateLimiter now0) evs).mapPeerRequests p).bIsBanned = false) ∧
    (runRLRes (initRateLimiter 0) c3Events).2.take 30 = List.replicate 30 none ∧
    (runRLRes (initRateLimiter 0) c3Events).2.drop 30 =
      List.replicate 120 (some RejectReason.rateLimit) ∧
    ((runRLRes (initRateLimiter 0) c3Events).1.mapPeerRequests 0).bIsBanned = false := by
  refine ⟨fun evs now0 p => ?_, by decide, by decide, by decide⟩
  exact ((rlNoBanInv_run (initRateLimiter now0) evs
    ⟨rfl, fun q => ⟨rfl, by simp [initRateLimiter, initPeerRequestInfo]⟩⟩).2 p).1

/-! ### Per-peer sliding-window bound (C4) -/

theorem inWindow_iff (a t : Int) : inWindow a t = true ↔ a ≤ t ∧ t ≤ a + 60 := by
  simp [inWindow]

theorem admittedOf_append (p q : Nat) (adm : List (Nat × Int)) (s : Int) :
    admittedOf p (adm ++ [(q, s)]) =
      admittedOf p adm ++ (if q = p then [s] else []) := by
  simp only [admittedOf, List.filter_append, List.map_append]
  congr 1
  by_cases h : q = p
  · simp [h]
  · simp [h]

theorem windowCount_append (p q : Nat) (a : Int) (adm : List (Nat × Int)) (s : Int) :
    windowCount p a (adm ++ [(q, s)]) =
      windowCount p a adm + (if q = p ∧ inWindow a s = true then 1 else 0) := by
  simp only [windowCount, admittedOf_append, List.filter_append, List.length_append]
  by_cases hq : q = p
  · by_cases hw : inWindow a s = true
    · simp [hq, hw]
    · simp [hq, hw]
  · simp [hq]

theorem filter_window_le (l1 l2a l2b : List Int) (a s : Int)
    (h1 : ∀ t ∈ l1, t + 60 < s) (h2 : ∀ t ∈ l2a, t + 60 < s) (hsa : s ≤ a + 60) :
    ((l1 ++ (l2a ++ l2b)).filter (inWindow a)).length ≤ l2b.length := by
  have e1 : l1.filter (inWindow a) = [] := by
    rw [List.filter_eq_nil_iff]
    intro t ht
    have h3 := h1 t ht
    simp only [inWindow_iff]
    omega
  have e2 : l2a.filter (inWindow a) = [] := by
    rw [List.filter_eq_nil_iff]
    intro t ht
    have h3 := h2 t ht
    simp only [inWindow_iff]
    omega
  rw [List.filter_append, List.filter_append, e1, e2]
  simpa using List.length_filter_le _ l2b

theorem rlWindowInv_mono (T T2 : Int) (h : T ≤ T2) (rl : CSnapshotRateLimiter)
    (adm : List (Nat × Int)) (hinv : RLWindowInv T rl adm) : RLWindowInv T2 rl adm := by
  obtain ⟨hcfg, hp⟩ := hinv
  refine ⟨hcfg, fun p => ?_⟩
  obtain ⟨h1, h2, ⟨k, hk, hdrop, hpre⟩, h4, h5, h6, h7⟩ := hp p
  exact ⟨h1, h2, ⟨k, hk, hdrop, fun t ht => by have := hpre t ht; omega⟩, h4,
    fun t ht => le_trans (h5 t ht) h, h6, h7⟩

theorem rlWindowInv_step (e : RLEvent) (T : Int) (rl : CSnapshotRateLimiter)
    (adm : List (Nat × Int)) (hinv : RLWindowInv T rl adm)
    (hT : ∀ u, rlEventTime e = some u → T ≤ u) :
    RLWindowInv ((rlEventTime e).getD T) (rlStepAdm (rl, adm) e).1 (rlStepAdm (rl, adm) e).2 := by
  cases e with
  | complete =>
    show RLWindowInv T rl.CompleteTransfer adm
    obtain ⟨hcfg, hpeers⟩ := hinv
    have hmap : rl.CompleteTransfer.mapPeerRequests = rl.mapPeerRequests := by
      unfold CSnapshotRateLimiter.CompleteTransfer
      split_ifs <;> rfl
    have hcfg2 : rl.CompleteTransfer.config = rl.config := by
      unfold CSnapshotRateLimiter.CompleteTransfer
      split_ifs <;> rfl
    exact ⟨by rw [hcfg2]; exact hcfg, fun p => by rw [hmap]; exact hpeers p⟩
  | served a c b t =>
    have hT2 : T ≤ t := hT t rfl
    obtain ⟨hcfg, hpeers⟩ := rlWindowInv_mono T t hT2 rl adm hinv
    show RLWindowInv t (rl.RecordServed a c b t) adm
    refine ⟨hcfg, fun p => ?_⟩
    have hmp : (rl.RecordServed a c b t).mapPeerRequests p =
        if p = a then
          { rl.mapPeerRequests a with
            servedChunks := mapInsert (rl.mapPeerRequests a).servedChunks c t }
        else rl.mapPeerRequests p := rfl
    rw [hmp]
    split_ifs with hp
    · subst hp
      exact hpeers p
    · exact hpeers p
  | cleanup t =>
    have hT2 : T ≤ t := hT t rfl
    obtain ⟨hcfg, hpeers⟩ := rlWindowInv_mono T t hT2 rl adm hinv
    show RLWindowInv t (rl.Cleanup t) adm
    refine ⟨?_, fun p => ?_⟩
    · have hc : (rl.Cleanup t).config = rl.config := by
        simp only [CSnapshotRateLimiter.Cleanup]
        split_ifs <;> rfl
      rw [hc]
      exact hcfg
    · have hmp : (rl.Cleanup t).mapPeerRequests = fun q =>
          if t - (rl.mapPeerRequests q).nLastRequestTime > 600 ∧
              (rl.mapPeerRequests q).bIsBanned = false then initPeerRequestInfo
          else rl.mapPeerRequests q := by
        simp only [CSnapshotRateLimiter.Cleanup]
        split_ifs <;> rfl
      rw [hmp]
      dsimp only
      split_ifs with hp
      · obtain ⟨hp1, hp2⟩ := hp
        obtain ⟨h1, h2, ⟨k, hk, hdrop, hpre⟩, h4, h5, h6, h7⟩ := hpeers p
        refine ⟨rfl, by simp [initPeerRequestInfo], ?_, h4, h5, ?_, h7⟩
        · refine ⟨(admittedOf p adm).length, le_refl _,
            (List.drop_length _).symm, ?_⟩
          rw [List.take_length]
          intro u hu
          have hdecomp : admittedOf p adm =
              (admittedOf p adm).take k ++ (rl.mapPeerRequests p).requestTimes := by
            rw [hdrop]
            exact (List.take_append_drop k _).symm
          rw [hdecomp] at hu
          rcases List.mem_append.mp hu with hu1 | hu2
          · have := hpre u hu1
            omega
          · have hle := h6 u hu2
            omega
        · intro u hu
          simp [initPeerRequestInfo] at hu
      · exact hpeers p
  | allow addr c s =>
    have hT2 : T ≤ s := hT s rfl
    obtain ⟨hcfg, hpeers⟩ := rlWindowInv_mono T s hT2 rl adm hinv
    rcases allowRequest_spec rl addr c s (hpeers addr).1 (hpeers addr).2.1 hcfg with
      ⟨r, _, heq⟩ | ⟨hge, heq⟩ | ⟨hlt, hact, heq⟩
    · have hstate : rlStepAdm (rl, adm) (RLEvent.allow addr c s) =
          (rl.setPeer addr (rl.mapPeerRequests addr), adm) := by
        simp [rlStepAdm, heq]
      show RLWindowInv s (rlStepAdm (rl, adm) (RLEvent.allow addr c s)).1
        (rlStepAdm (rl, adm) (RLEvent.allow addr c s)).2
      rw [hstate]
      refine ⟨hcfg, fun p => ?_⟩
      rw [setPeer_eval]
      split_ifs with hp
      · subst hp
        exact hpeers p
      · exact hpeers p
    · have hstate : rlStepAdm (rl, adm) (RLEvent.allow addr c s) =
          (rl.setPeer addr { rl.mapPeerRequests addr with
            requestTimes := dropOldRequests s (rl.mapPeerRequests addr).requestTimes },
           adm) := by
        simp [rlStepAdm, heq]
      show RLWindowInv s (rlStepAdm (rl, adm) (RLEvent.allow addr c s)).1
        (rlStepAdm (rl, adm) (RLEvent.allow addr c s)).2
      rw [hstate]
      dsimp only
      refine ⟨hcfg, fun p => ?_⟩
      rw [setPeer_eval]
      split_ifs with hp
      · subst hp
        obtain ⟨h1, h2, ⟨k, hk, hdrop, hpre⟩, h4, h5, h6, h7⟩ := hpeers p
        obtain ⟨j, hj, hdspec, hdcond⟩ :=
          dropOldRequests_spec s (rl.mapPeerRequests p).requestTimes
        have hlen2 : (rl.mapPeerRequests p).requestTimes.length =
            (admittedOf p adm).length - k := by
          rw [hdrop, List.length_drop]
        refine ⟨h1, le_trans (dropOldRequests_length_le s _) h2, ?_, h4, h5, ?_, h7⟩
        · refine ⟨k + j, by omega, ?_, ?_⟩
          · show dropOldRequests s (rl.mapPeerRequests p).requestTimes =
              (admittedOf p adm).drop (k + j)
            rw [hdspec, hdrop, List.drop_drop]
          · rw [List.take_add]
            intro u hu
            rcases List.mem_append.mp hu with hu1 | hu2
            · exact hpre u hu1
            · rw [← hdrop] at hu2
              have := hdcond u hu2
              omega
        · intro u hu
          have hu2 : u ∈ dropOldRequests s (rl.mapPeerRequests p).requestTimes := hu
          rw [hdspec] at hu2
          exact h6 u (List.mem_of_mem_drop hu2)
      · exact hpeers p
    · have hstate : rlStepAdm (rl, adm) (RLEvent.allow addr c s) =
          ({ rl.setPeer addr { rl.mapPeerRequests addr with
               requestTimes :=
                 dropOldRequests s (rl.mapPeerRequests addr).requestTimes ++ [s],
               nLastRequestTime := s,
               nTotalRequests := (rl.mapPeerRequests addr).nTotalRequests + 1 }
             with nActiveTransfers := rl.nActiveTransfers + 1 },
           adm ++ [(addr, s)]) := by
        simp [rlStepAdm, heq]
      show RLWindowInv s (rlStepAdm (rl, adm) (RLEvent.allow addr c s)).1
        (rlStepAdm (rl, adm) (RLEvent.allow addr c s)).2
      rw [hstate]
      dsimp only
      refine ⟨hcfg, fun p => ?_⟩
      simp only [CSnapshotRateLimiter.setPeer]
      split_ifs with hp
      · subst hp
        obtain ⟨h1, h2, ⟨k, hk, hdrop, hpre⟩, h4, h5, h6, h7⟩ := hpeers p
        obtain ⟨j, hj, hdspec, hdcond⟩ :=
          dropOldRequests_spec s (rl.mapPeerRequests p).requestTimes
        have hL : admittedOf p (adm ++ [(p, s)]) = admittedOf p adm ++ [s] := by
          rw [admittedOf_append, if_pos rfl]
        have hlen2 : (rl.mapPeerRequests p).requestTimes.length =
            (admittedOf p adm).length - k := by
          rw [hdrop, List.length_drop]
        have hkj : k + j ≤ (admittedOf p adm).length := by omega
        refine ⟨h1, ?_, ?_, ?_, ?_, ?_, ?_⟩
        · show (dropOldRequests s (rl.mapPeerRequests p).requestTimes ++ [s]).length ≤ 30
          rw [List.length_append]
          simp only [List.length_cons, List.length_nil]
          omega
        · refine ⟨k + j, ?_, ?_, ?_⟩
          · rw [hL, List.length_append]
            simp only [List.length_cons, List.length_nil]
            omega
          · show dropOldRequests s (rl.mapPeerRequests p).requestTimes ++ [s] =
              (admittedOf p (adm ++ [(p, s)])).drop (k + j)
            rw [hL, List.drop_append_of_le_length hkj, hdspec, hdrop, List.drop_drop]
          · rw [hL, List.take_append_of_le_length hkj, List.take_add]
            intro u hu
            rcases List.mem_append.mp hu with hu1 | hu2
            · exact hpre u hu1
            · rw [← hdrop] at hu2
              have := hdcond u hu2
              omega
        · rw [hL, List.pairwise_append]
          refine ⟨h4, List.pairwise_singleton _ _, fun x hx y hy => ?_⟩
          rw [List.mem_singleton] at hy
          subst hy
          exact h5 x hx
        · rw [hL]
          intro u hu
          rcases List.mem_append.mp hu with hu1 | hu2
          · exact h5 u hu1
          · rw [List.mem_singleton] at hu2
            omega
        · intro u hu
          have hu2 : u ∈ dropOldRequests s (rl.mapPeerRequests p).requestTimes ++ [s] := hu
          rcases List.mem_append.mp hu2 with hu3 | hu4
          · rw [hdspec] at hu3
            have hmem := List.mem_of_mem_drop hu3
            have hmem2 : u ∈ admittedOf p adm := by
              rw [hdrop] at hmem
              exact List.mem_of_mem_drop hmem
            exact h5 u hmem2
          · rw [List.mem_singleton] at hu4
            exact le_of_eq hu4
        · intro a0
          rw [windowCount_append]
          by_cases hw : inWindow a0 s = true
          · rw [if_pos ⟨rfl, hw⟩]
            have hbound : windowCount p a0 adm ≤
                (dropOldRequests s (rl.mapPeerRequests p).requestTimes).length := by
              unfold windowCount
              have hdecomp : admittedOf p adm =
                  (admittedOf p adm).take k ++
                    ((rl.mapPeerRequests p).requestTimes.take j ++
                      dropOldRequests s (rl.mapPeerRequests p).requestTimes) := by
                rw [hdspec, List.take_append_drop j, hdrop]
                exact (List.take_append_drop k _).symm
              rw [hdecomp]
              refine filter_window_le _ _ _ _ s ?_ ?_ ((inWindow_iff a0 s).mp hw).2
              · intro u hu
                exact hpre u hu
              · intro u hu
                have := hdcond u hu
                omega
            omega
          · rw [if_neg (fun hh => hw hh.2)]
            have := h7 a0
            omega
      · have hadm : admittedOf p (adm ++ [(addr, s)]) = admittedOf p adm := by
          rw [admittedOf_append, if_neg (fun hh => hp hh.symm), List.append_nil]
        obtain ⟨h1, h2, ⟨k, hk, hdrop, hpre⟩, h4, h5, h6, h7⟩ := hpeers p
        refine ⟨h1, h2, ⟨k, by rw [hadm]; exact hk, by rw [hadm]; exact hdrop,
          by rw [hadm]; exact hpre⟩, by rw [hadm]; exact h4, by rw [hadm]; exact h5,
          h6, fun a0 => ?_⟩
        rw [windowCount_append, if_neg (fun hh => hp hh.1.symm)]
        have := h7 a0
        omega

theorem foldr_min_le_mem (l : List Int) (b : Int) (x : Int) (hx : x ∈ l) :
    l.foldr min b ≤ x := by
  induction l with
  | nil => simp at hx
  | cons y rest ih =>
    rcases List.mem_cons.mp hx with rfl | h2
    · exact min_le_left _ _
    · exact le_trans (min_le_right _ _) (ih h2)

theorem rlWindowInv_run (evs : List RLEvent) (T : Int) (rl : CSnapshotRateLimiter)
    (adm : List (Nat × Int)) (hinv : RLWindowInv T rl adm)
    (hfut : ∀ u ∈ rlTimes evs, T ≤ u)
    (hmono : List.Pairwise (· ≤ ·) (rlTimes evs)) (p : Nat) (a : Int) :
    windowCount p a (evs.foldl rlStepAdm (rl, adm)).2 ≤ 30 := by
  induction evs generalizing T rl adm with
  | nil => exact ((hinv.2 p).2.2.2.2.2.2) a
  | cons e rest ih =>
    have hTe : ∀ u, rlEventTime e = some u → T ≤ u := by
      intro u hu
      refine hfut u ?_
      rw [rlTimes, List.filterMap_cons, hu]
      exact List.mem_cons_self _ _
    have hstep := rlWindowInv_step e T rl adm hinv hTe
    rw [List.foldl_cons]
    cases he : rlEventTime e with
    | none =>
      rw [he] at hstep
      have htimes : rlTimes (e :: rest) = rlTimes rest := by
        rw [rlTimes, List.filterMap_cons, he, rlTimes]
      rw [htimes] at hfut hmono
      exact ih T _ _ hstep hfut hmono
    | some u =>
      rw [he] at hstep
      have htimes : rlTimes (e :: rest) = u :: rlTimes rest := by
        rw [rlTimes, List.filterMap_cons, he, rlTimes]
      rw [htimes] at hfut hmono
      rw [List.pairwise_cons] at hmono
      exact ih u _ _ hstep (fun v hv => hmono.1 v hv) hmono.2

/-- C4: with the default limits, for any call sequence with nondecreasing
`GetTime()` values, any peer and any 60-second sliding window `[a, a+60]`,
at most 30 = `nMaxChunksPerPeerPerMinute` of that peer's requests admitted
by `AllowRequest` carry a timestamp in the window: after dropping entries
older than 60 s, a request is admitted only when fewer than 30 remain, and
every admission appends its own timestamp to the window. -/
theorem c4_sliding_window_bound (evs : List RLEvent) (now0 : Int)
    (hmono : List.Pairwise (· ≤ ·) (rlTimes evs)) (p : Nat) (a : Int) :
    windowCount p a (runRLAdm (initRateLimiter now0) evs).2 ≤ 30 := by
  have hinit : RLWindowInv ((rlTimes evs).foldr min 0) (initRateLimiter now0) [] := by
    refine ⟨rfl, fun q => ?_⟩
    refine ⟨rfl, by simp [initRateLimiter, initPeerRequestInfo], ?_, ?_, ?_, ?_, ?_⟩
    · exact ⟨0, Nat.zero_le _, rfl, by simp [admittedOf]⟩
    · simp [admittedOf]
    · simp [admittedOf]
    · simp [initRateLimiter, initPeerRequestInfo]
    · simp [windowCount, admittedOf]
  exact rlWindowInv_run evs _ _ [] hinit
    (fun u hu => foldr_min_le_mem _ _ u hu) hmono p a

/-- C4 (witness): a concrete monotone trace. -/
theorem c4_sliding_window_bound_witness :
    List.Pairwise (· ≤ ·) (rlTimes [RLEvent.allow 0 0 5, RLEvent.allow 0 1 8]) ∧
    windowCount 0 0
      (runRLAdm (initRateLimiter 0) [RLEvent.allow 0 0 5, RLEvent.allow 0 1 8]).2 ≤ 30 :=
  ⟨by decide,
   c4_sliding_window_bound [RLEvent.allow 0 0 5, RLEvent.allow 0 1 8] 0 (by decide) 0 0⟩

end ZclassicSnapshot
